import Mathlib

/-!
Shallow embedding of `rock_paper_scissors_sim.py` (the simulation core:
spatial queries, the per-agent force model, the collision-driven type
conversion and the tick loop), together with theorems checking the frozen
claims about the program.

Modelling conventions:
* Python floats are embedded as exact rationals (`ℚ`).
* The module-level RNG (`random.random`) is an explicit oracle
  `rnd : ℕ → ℚ` consumed through a running counter, one index per call;
  `random.randint` draws are a separate oracle supplying the drawn integer,
  with its documented range `randint(a, b) ∈ [a, b]` taken as a hypothesis
  where a theorem needs it.
* Source comparisons of the form `math.sqrt d ⋈ c` against a nonnegative
  constant `c` are embedded as the exactly equivalent `d ⋈ c^2`; where a
  square-root value itself enters the arithmetic (direction normalisation)
  we use `sqrtQ`, which agrees with the real square root whenever the
  argument is the square of a rational — which holds at every concrete
  input evaluated in this development (all of them lie on one axis).
-/

namespace RPS

/-- WIDTH constant of the source (play area width). -/
def WIDTH : ℚ := 960

/-- HEIGHT constant of the source. -/
def HEIGHT : ℚ := 960

/-- MAX_TIME: frames before declaring a draw. -/
def MAX_TIME : ℕ := 3000

/-- CENTER_X = WIDTH / 2. -/
def CENTER_X : ℚ := WIDTH / 2

/-- CENTER_Y = HEIGHT / 2. -/
def CENTER_Y : ℚ := HEIGHT / 2

/-- GROUP_COHESION coefficient. -/
def GROUP_COHESION : ℚ := 1/10

/-- GROUP_ALIGNMENT coefficient. -/
def GROUP_ALIGNMENT : ℚ := 1/10

/-- GROUP_RADIUS: flocking radius. -/
def GROUP_RADIUS : ℚ := 100

/-- GROUP_SEPARATION force strength. -/
def GROUP_SEPARATION : ℚ := 82/100

/-- GROUP_MIN_DISTANCE: minimum spacing between same-type units. -/
def GROUP_MIN_DISTANCE : ℚ := 30

/-- UNIT_RADIUS of an agent. -/
def UNIT_RADIUS : ℚ := 5

/-- UNIT_SPEED: maximum (and base) speed. -/
def UNIT_SPEED : ℚ := 2

/-- MIN_DISTANCE = UNIT_RADIUS * 2: contact distance for a collision. -/
def MIN_DISTANCE : ℚ := UNIT_RADIUS * 2

/-- REPULSION_FACTOR for threat repulsion. -/
def REPULSION_FACTOR : ℚ := 4

/-- REPULSION_RADIUS within which threat repulsion acts. -/
def REPULSION_RADIUS : ℚ := 150

/-- RANDOM_MOVEMENT: jitter scale. -/
def RANDOM_MOVEMENT : ℚ := 1/2

/-- COLLISION_CHANCE: probability of type change on contact. -/
def COLLISION_CHANCE : ℚ := 3/10

/-- CENTER_FORCE coefficient of the center attraction. -/
def CENTER_FORCE : ℚ := 9/10

/-- Squared Euclidean distance between two points; the source compares
`math.sqrt` of this value against nonnegative constants, which is
equivalent to comparing this value against the squared constant. -/
def distSq (p q : ℚ × ℚ) : ℚ := (p.1 - q.1) ^ 2 + (p.2 - q.2) ^ 2

/-- Model of `math.sqrt` on the nonnegative rationals produced by the
simulation.  It is exact whenever the argument is the square of a rational
(`sqrtQ (d^2) = d` for `0 ≤ d`), which holds at every concrete input
evaluated in this development; general theorems below never depend on its
value at other inputs. -/
def sqrtQ (q : ℚ) : ℚ := (Nat.sqrt q.num.toNat : ℚ) / (Nat.sqrt q.den : ℚ)

/-- One mobile agent: class `Unit` of the source.  `id` models Python
object identity (the source compares units with `!=` / `is`, i.e. by
identity); `unit_type` is 0 = Scissors, 1 = Rock, 2 = Paper; `target`
stores the identity of the unit chosen by `find_target` (the source
stores the object reference). -/
structure Unit where
  id : ℕ
  unit_type : ℕ
  x : ℚ
  y : ℚ
  vx : ℚ
  vy : ℚ
  target : Option ℕ
deriving DecidableEq, Repr

instance : Inhabited Unit := ⟨⟨0, 0, 0, 0, 0, 0, none⟩⟩

/-- Prey relation: Scissors (0) target Paper (2), Rock (1) targets
Scissors (0), Paper (2) targets Rock (1), i.e. `(t + 2) % 3` as inlined
in `Unit.find_target`. -/
def prey_type (t : ℕ) : ℕ := (t + 2) % 3

/-- Predator relation: `(t + 1) % 3` as inlined in `Unit.find_threats`
and `Unit.check_collision`. -/
def predator_type (t : ℕ) : ℕ := (t + 1) % 3

/-- Class `SpatialTree`: the per-tick k-d tree.  It freezes the positions of
the units at construction time (`positions = np.array([[u.x, u.y] ...])`);
queries resolve hits back through the *live* unit list `self.units`,
which we pass explicitly as `state` at each query. -/
structure SpatialTree where
  positions : List (ℚ × ℚ)
deriving DecidableEq, Repr

/-- Constructor `SpatialTree.__init__`: `cKDTree` construction fails on an empty
population because `np.array([])` is 1-dimensional, not of shape (n, 2);
otherwise the tree records the build-time positions. -/
def SpatialTree.build (units : List Unit) : Except String SpatialTree :=
  if units.isEmpty then .error "ValueError: data must be 2 dimensions"
  else .ok ⟨units.map (fun u => (u.x, u.y))⟩

/-- Method `SpatialTree.query_radius`: `query_ball_point` returns the indices of
the tree points within distance `radius` of the (live) query position —
scipy's test is inclusive (`distance ≤ radius`) — and the wrapper maps
them through the live unit list, dropping the querying unit itself
(`self.units[i] != unit`, an identity test). -/
def query_radius (t : SpatialTree) (state : List Unit) (u : Unit) (radius : ℚ) :
    List Unit :=
  (List.range t.positions.length).filterMap (fun i =>
    if distSq (t.positions.getD i (0, 0)) (u.x, u.y) ≤ radius ^ 2 then
      if (state.getD i default).id = u.id then none
      else some (state.getD i default)
    else none)

/-- Method `SpatialTree.query_by_type`: `query_radius` filtered by unit type. -/
def query_by_type (t : SpatialTree) (state : List Unit) (u : Unit) (radius : ℚ)
    (unit_type : ℕ) : List Unit :=
  (query_radius t state u radius).filter (fun v => v.unit_type = unit_type)

/-- Insertion step of the distance sort used to model the `cKDTree.query`
ascending order in `find_nearest_of_type`. -/
def insertByKey (key : Unit → ℚ) (a : Unit) : List Unit → List Unit
  | [] => [a]
  | b :: bs => if key a ≤ key b then a :: b :: bs else b :: insertByKey key a bs

/-- Sort of the candidate units by ascending key (squared distance);
models the ascending-distance order of `cKDTree.query`.  Ties are broken
arbitrarily in scipy; this model keeps them stable. -/
def sortByKey (key : Unit → ℚ) : List Unit → List Unit
  | [] => []
  | a :: as => insertByKey key a (sortByKey key as)

/-- Method `SpatialTree.find_nearest_of_type`: filter the *live* unit list
(`self.units`) down to the units of the requested type other than the
querying unit (identity test), and return the `min k _` nearest of them,
ascending by distance, paired with their distances. -/
def find_nearest_of_type (state : List Unit) (u : Unit) (unit_type : ℕ)
    (k : ℕ) : List (Unit × ℚ) :=
  let type_units := state.filter (fun v => v.unit_type = unit_type ∧ v.id ≠ u.id)
  if type_units.isEmpty then []
  else
    let k1 := min k type_units.length
    let sorted := sortByKey (fun v => distSq (v.x, v.y) (u.x, u.y)) type_units
    (sorted.take k1).map (fun v => (v, sqrtQ (distSq (v.x, v.y) (u.x, u.y))))

/-- Method `Unit.find_target` with the two random draws made explicit: `c` is the
`random.random()` draw (taken whenever candidates exist) and `j` the
`random.randint(1, num_choices - 1)` draw (in range `1 ≤ j ≤ num_choices - 1`
by `randint`'s contract; used only when `c ≥ 0.95` and there are at least
two candidates). -/
def find_target (state : List Unit) (u : Unit) (c : ℚ) (j : ℕ) : Option Unit :=
  let potential_targets := find_nearest_of_type state u (prey_type u.unit_type) 3
  if potential_targets.isEmpty then none
  else if c < 95/100 ∨ potential_targets.length = 1 then
    some (potential_targets.getD 0 default).1
  else
    some (potential_targets.getD j default).1

/-- Method `Unit.find_threats`: predators within `REPULSION_RADIUS` (via the
tree), paired with their exact live distances. -/
def find_threats (t : SpatialTree) (state : List Unit) (u : Unit) :
    List (Unit × ℚ) :=
  (query_by_type t state u REPULSION_RADIUS (predator_type u.unit_type)).map
    (fun v => (v, sqrtQ (distSq (u.x, u.y) (v.x, v.y))))

/-- Per-axis boundary handling at the end of `Unit.move_towards_target`:
clamp the coordinate into `[lo, hi]` and damp-invert the velocity
component (`*= -0.5`) when a boundary was hit. -/
def bounceAxis (lo hi pos vel : ℚ) : ℚ × ℚ :=
  if pos < lo then (lo, vel * (-1/2))
  else if hi < pos then (hi, vel * (-1/2))
  else (pos, vel)

/-- Velocity accumulation of `Unit.move_towards_target`: target attraction,
threat repulsion, flocking separation/cohesion/alignment, center pull,
jitter (two `random.random()` draws at indices `k`, `k+1`) and the global
anti-overlap pass over the live list `state` (the mutable global
`all_units`), followed by the speed clamp.  Queries read the tick's tree
for the radius prefilter and the live `state` for positions and
velocities, exactly as the source (which mutates units in place while
iterating). -/
def moveVelocity (t : SpatialTree) (state : List Unit) (u : Unit)
    (rnd : ℕ → ℚ) (k : ℕ) : ℚ × ℚ :=
  -- self.vx = 0; self.vy = 0; attraction to target (a live reference)
  let v1 : ℚ × ℚ :=
    match u.target.bind (fun tid => state.find? (fun w => w.id = tid)) with
    | none => (0, 0)
    | some tg =>
      let dx := tg.x - u.x
      let dy := tg.y - u.y
      let dsq := dx ^ 2 + dy ^ 2
      if 0 < dsq then
        let d := sqrtQ dsq
        let attraction_strength := max (7/10) (1 - REPULSION_FACTOR / 2)
        (dx / d * UNIT_SPEED * attraction_strength,
         dy / d * UNIT_SPEED * attraction_strength)
      else (0, 0)
  -- repulsion from threats (distance recomputed live in find_threats)
  let v2 := (find_threats t state u).foldl (fun (v : ℚ × ℚ) th =>
    if 0 < th.2 then
      let dx := u.x - th.1.x
      let dy := u.y - th.1.y
      let repulsion_strength := REPULSION_FACTOR * (1 - th.2 / REPULSION_RADIUS)
      (v.1 + dx / th.2 * repulsion_strength, v.2 + dy / th.2 * repulsion_strength)
    else v) v1
  -- group behavior with same-type neighbors (GROUP_BEHAVIOR is True)
  let neighbors := query_by_type t state u GROUP_RADIUS u.unit_type
  let v3 :=
    if neighbors.isEmpty then v2
    else
      -- separation
      let sep := neighbors.foldl (fun (acc : ℚ × ℚ × ℕ) w =>
        let dx := u.x - w.x
        let dy := u.y - w.y
        let dsq := dx ^ 2 + dy ^ 2
        if dsq < GROUP_MIN_DISTANCE ^ 2 ∧ 0 < dsq then
          let d := sqrtQ dsq
          let separation_factor := 1 - d / GROUP_MIN_DISTANCE
          (acc.1 + dx / d * separation_factor, acc.2.1 + dy / d * separation_factor,
           acc.2.2 + 1)
        else acc) ((0 : ℚ), (0 : ℚ), (0 : ℕ))
      let va := if 0 < sep.2.2 then
          (v2.1 + sep.1 * GROUP_SEPARATION, v2.2 + sep.2.1 * GROUP_SEPARATION)
        else v2
      -- cohesion toward the live centroid of the neighbors
      let center_x := (neighbors.map (·.x)).sum / neighbors.length
      let center_y := (neighbors.map (·.y)).sum / neighbors.length
      let vb := if center_x ≠ u.x ∨ center_y ≠ u.y then
          let dx := center_x - u.x
          let dy := center_y - u.y
          let dsq := dx ^ 2 + dy ^ 2
          if GROUP_MIN_DISTANCE ^ 2 < dsq then
            let d := sqrtQ dsq
            (va.1 + dx / d * GROUP_COHESION, va.2 + dy / d * GROUP_COHESION)
          else va
        else va
      -- alignment with the neighbors' velocities as they are right now
      -- (the source reads unit.vx of live, in-place-mutated units)
      let avg_vx := (neighbors.map (·.vx)).sum / neighbors.length
      let avg_vy := (neighbors.map (·.vy)).sum / neighbors.length
      (vb.1 + avg_vx * GROUP_ALIGNMENT, vb.2 + avg_vy * GROUP_ALIGNMENT)
  -- center attraction (CENTER_ATTRACTION is True)
  let v4 :=
    let dx := CENTER_X - u.x
    let dy := CENTER_Y - u.y
    let dsq := dx ^ 2 + dy ^ 2
    if (WIDTH / 4) ^ 2 < dsq then
      let d := sqrtQ dsq
      let center_strength := CENTER_FORCE * (d / (WIDTH / 2))
      if 0 < dsq then (v3.1 + dx / d * center_strength, v3.2 + dy / d * center_strength)
      else v3
    else v3
  -- random movement: two fresh draws
  let v5 := (v4.1 + (rnd k - 1/2) * RANDOM_MOVEMENT,
             v4.2 + (rnd (k + 1) - 1/2) * RANDOM_MOVEMENT)
  -- global separation over all live units (identity test `other is self`)
  let gs := state.foldl (fun (acc : ℚ × ℚ) w =>
    if w.id = u.id then acc
    else
      let dx := u.x - w.x
      let dy := u.y - w.y
      let dsq := dx ^ 2 + dy ^ 2
      if dsq < (MIN_DISTANCE / (105/100)) ^ 2 ∧ 0 < dsq then
        let d := sqrtQ dsq
        let force := 20 * (MIN_DISTANCE - d) / MIN_DISTANCE
        (acc.1 + dx / d * force, acc.2 + dy / d * force)
      else acc) (0, 0)
  let v6 := (v5.1 + gs.1, v5.2 + gs.2)
  -- normalize velocity if it's too high
  let spsq := v6.1 ^ 2 + v6.2 ^ 2
  if UNIT_SPEED ^ 2 < spsq then
    let sp := sqrtQ spsq
    (v6.1 / sp * UNIT_SPEED, v6.2 / sp * UNIT_SPEED)
  else v6

/-- Position integration and boundary handling at the end of
`Unit.move_towards_target`: apply the (possibly clamped) velocity, then
bounce off the edges, each axis independently. -/
def applyBounce (u : Unit) (v : ℚ × ℚ) : Unit :=
  let bx := bounceAxis UNIT_RADIUS (WIDTH - UNIT_RADIUS) (u.x + v.1) v.1
  let by' := bounceAxis UNIT_RADIUS (HEIGHT - UNIT_RADIUS) (u.y + v.2) v.2
  { u with x := bx.1, y := by'.1, vx := bx.2, vy := by'.2 }

/-- Method `Unit.move_towards_target` for one unit: velocity accumulation
followed by integration and boundary handling; returns the updated unit
and the advanced draw counter (two jitter draws per unit). -/
def move_towards_target (t : SpatialTree) (state : List Unit) (u : Unit)
    (rnd : ℕ → ℚ) (k : ℕ) : Unit × ℕ :=
  (applyBounce u (moveVelocity t state u rnd k), k + 2)

/-- The movement loop of `main` (`for unit in units: unit.move_towards_target`)
over an explicit list of indices still to process: each step reads the
*current*, partially updated state (in-place mutation) and writes the
unit back at its index, threading the draw counter. -/
def moveLoop (t : SpatialTree) (rnd : ℕ → ℚ) :
    List ℕ → List Unit → ℕ → List Unit × ℕ
  | [], s, k => (s, k)
  | i :: rest, s, k =>
    let p := move_towards_target t s (s.getD i default) rnd k
    moveLoop t rnd rest (s.set i p.1) p.2

/-- The full movement phase of one tick: process every unit in list order. -/
def moveAll (t : SpatialTree) (s : List Unit) (rnd : ℕ → ℚ) (k : ℕ) :
    List Unit × ℕ :=
  moveLoop t rnd (List.range s.length) s k

/-- State (and counter) after the first `i` units of the movement phase
have been processed. -/
def moveUpTo (t : SpatialTree) (s : List Unit) (rnd : ℕ → ℚ) (k : ℕ) (i : ℕ) :
    List Unit × ℕ :=
  moveLoop t rnd (List.range i) s k

/-- Modelled from the spec: the double-buffered movement phase it
prescribes (read every neighbor quantity, in particular the alignment
velocities, from the frozen previous-tick snapshot; write to a fresh
buffer).  This is the comparison point for the in-place `moveAll` of the
source; it is not code of the repository. -/
def moveAllSnapshot (t : SpatialTree) (s : List Unit) (rnd : ℕ → ℚ) (k : ℕ) :
    List Unit :=
  (List.range s.length).map (fun i =>
    (move_towards_target t s (s.getD i default) rnd (k + 2 * i)).1)

/-- The scanning loop of `Unit.check_collision`: for each nearby predator,
test the exact live distance `< MIN_DISTANCE`; each qualifying predator
costs one `random.random()` draw, and the first successful draw converts
(returns the predator type). -/
def collideLoop (u : Unit) (rnd : ℕ → ℚ) :
    List Unit → ℕ → Option ℕ × ℕ
  | [], k => (none, k)
  | p :: rest, k =>
    if distSq (u.x, u.y) (p.x, p.y) < MIN_DISTANCE ^ 2 then
      if rnd k < COLLISION_CHANCE then (some (predator_type u.unit_type), k + 1)
      else collideLoop u rnd rest (k + 1)
    else collideLoop u rnd rest k

/-- Method `Unit.check_collision`: prefilter the predators through the tree
(radius `MIN_DISTANCE * 2` around the live position of `u`, against the
build-time positions of the others), then scan them. -/
def check_collision (t : SpatialTree) (state : List Unit) (u : Unit)
    (rnd : ℕ → ℚ) (k : ℕ) : Option ℕ × ℕ :=
  collideLoop u rnd
    (query_by_type t state u (MIN_DISTANCE * 2) (predator_type u.unit_type)) k

/-- Qualifying predators of `check_collision`: nearby predators whose
exact live distance is below `MIN_DISTANCE`. -/
def qualifying (u : Unit) (preds : List Unit) : List Unit :=
  preds.filter (fun p => distSq (u.x, u.y) (p.x, p.y) < MIN_DISTANCE ^ 2)

/-- First collision-phase loop of `main`: collect the `new_types` mapping
(index ↦ converted type) by evaluating every unit against the *unchanged*
state, threading the draw counter. -/
def collisionNewTypes (t : SpatialTree) (state : List Unit) (rnd : ℕ → ℚ) :
    List ℕ → ℕ → List (ℕ × ℕ)
  | [], _ => []
  | i :: rest, k =>
    let r := check_collision t state (state.getD i default) rnd k
    match r.1 with
    | some nt => (i, nt) :: collisionNewTypes t state rnd rest r.2
    | none => collisionNewTypes t state rnd rest r.2

/-- Draw counter after the collision checks of the given indices. -/
def collisionCounterFrom (t : SpatialTree) (state : List Unit) (rnd : ℕ → ℚ) :
    List ℕ → ℕ → ℕ
  | [], k => k
  | i :: rest, k =>
    collisionCounterFrom t state rnd rest
      (check_collision t state (state.getD i default) rnd k).2

/-- Second collision-phase loop of `main`: apply the collected
conversions (`units[i].unit_type = new_type`). -/
def applyNewTypes (state : List Unit) (nts : List (ℕ × ℕ)) : List Unit :=
  nts.foldl (fun s p => s.set p.1 { s.getD p.1 default with unit_type := p.2 }) state

/-- The whole collision phase of one tick: compute all conversions from
the pre-conversion state, then apply them. -/
def collisionPhase (t : SpatialTree) (state : List Unit) (rnd : ℕ → ℚ)
    (k : ℕ) : List Unit :=
  applyNewTypes state (collisionNewTypes t state rnd (List.range state.length) k)

/-- Target-assignment loop of `main` (`unit.target = unit.find_target(...)`):
map over the units, storing the identity of the chosen target.  `find_target`
reads only types, identities and positions, none of which this loop mutates,
so it reads the frozen `state`; the two RNG oracles are threaded by their
own counters (`kr` for `random.random`, `ki` for `random.randint`), advanced
exactly when the source draws. -/
def targetLoop (state : List Unit) (rnd : ℕ → ℚ) (rij : ℕ → ℕ) :
    List Unit → ℕ → ℕ → List Unit × ℕ × ℕ
  | [], kr, ki => ([], kr, ki)
  | u :: rest, kr, ki =>
    let pt := find_nearest_of_type state u (prey_type u.unit_type) 3
    let step : Option ℕ × ℕ × ℕ :=
      if pt.isEmpty then (none, kr, ki)
      else if rnd kr < 95/100 ∨ pt.length = 1 then
        ((find_target state u (rnd kr) (rij ki)).map (·.id), kr + 1, ki)
      else ((find_target state u (rnd kr) (rij ki)).map (·.id), kr + 1, ki + 1)
    let rest' := targetLoop state rnd rij rest step.2.1 step.2.2
    ({ u with target := step.1 } :: rest'.1, rest'.2)

/-- Python `range(a, b)` as a list of integers. -/
def intRange (a b : ℤ) : List ℤ :=
  (List.range (b - a).toNat).map (fun n : ℕ => a + (n : ℤ))

/-- Numpy integer indexing into an array of length `total`: nonnegative
indices must be `< total`, negative indices wrap once (`positions[-1]` is
the last row); anything else is an IndexError. -/
def npIndex (total : ℕ) (i : ℤ) : Option ℕ :=
  if 0 ≤ i then (if i < (total : ℤ) then some i.toNat else none)
  else (if -(total : ℤ) ≤ i then some (i + total).toNat else none)

/-- Unit-creation loop shared by the three type blocks of
`initialize_units`: each `(i, t)` appends `Unit(t, positions[i][0],
positions[i][1])`; fresh Python objects get distinct identities, modelled
by the running `nextId`. -/
def buildUnits (pos : ℕ → ℚ × ℚ) (totN : ℕ) :
    List (ℤ × ℕ) → ℕ → Except String (List Unit)
  | [], _ => .ok []
  | (i, t) :: rest, nextId =>
    match npIndex totN i with
    | none => .error "IndexError"
    | some n =>
      match buildUnits pos totN rest (nextId + 1) with
      | .error e => .error e
      | .ok l => .ok (⟨nextId, t, (pos n).1, (pos n).2, 0, 0, none⟩ :: l)

/-- Function `initialize_units` of the source: draw `total` uniform positions in
`[UNIT_RADIUS, WIDTH - UNIT_RADIUS) × [UNIT_RADIUS, HEIGHT - UNIT_RADIUS)`
(the position oracle `pos` stands for `np.random.uniform`, which raises a
ValueError when the requested size is negative), then append the scissors
block `range(sc)`, the rock block `range(sc, sc + rc)` and the paper block
`range(sc + rc, total)`.  The function performs no validation of its own. -/
def init_units (scissors_count rock_count paper_count : ℤ) (pos : ℕ → ℚ × ℚ) :
    Except String (List Unit) :=
  let total := scissors_count + rock_count + paper_count
  if total < 0 then .error "ValueError: negative dimensions are not allowed"
  else
    buildUnits pos total.toNat
      ((intRange 0 scissors_count).map (fun i => (i, 0)) ++
       (intRange scissors_count (scissors_count + rock_count)).map (fun i => (i, 1)) ++
       (intRange (scissors_count + rock_count) total).map (fun i => (i, 2))) 0

/-- Function `check_end_condition`: an empty population counts as ended, otherwise
the run ends when all units share the first unit's type. -/
def check_end_condition (units : List Unit) : Bool :=
  match units with
  | [] => true
  | u :: rest => rest.all (fun v => v.unit_type = u.unit_type)

/-- Terminal states of the loop in `main`.  `dominanceWin` carries the
winning type (`none` in the degenerate empty case, where the source
reports no winner) together with the winner's remaining count as shown by
the type tally of the HUD; `timeLimitDraw` carries the plurality type and
its count. -/
inductive Outcome where
  | running : Outcome
  | dominanceWin : Option ℕ → ℕ → Outcome
  | timeLimitDraw : ℕ → ℕ → Outcome
deriving DecidableEq, Repr

/-- End-of-tick bookkeeping of `main` (`time_steps += 1` followed by the
time-limit check and `check_end_condition`); `steps1` is the incremented
tick counter.  When both conditions fire in the same tick the dominance
message is the one that stands, so the dominance check takes precedence
here.  The time-limit winner is `counts.index(max(counts))`: the first
maximal count in Scissors, Rock, Paper order. -/
def tickOutcome (units : List Unit) (steps1 : ℕ) : Outcome :=
  if check_end_condition units then
    match units with
    | [] => .dominanceWin none 0
    | u :: _ =>
      .dominanceWin (some u.unit_type)
        (units.countP (fun v => v.unit_type = u.unit_type))
  else if MAX_TIME ≤ steps1 then
    let sc := units.countP (fun v => v.unit_type = 0)
    let rc := units.countP (fun v => v.unit_type = 1)
    let pc := units.countP (fun v => v.unit_type = 2)
    if rc ≤ sc ∧ pc ≤ sc then .timeLimitDraw 0 sc
    else if pc ≤ rc then .timeLimitDraw 1 rc
    else .timeLimitDraw 2 pc
  else .running

/-- One tick of the loop in `main`: build the tree from the current
positions, assign all targets, move all units (in place, in list order),
run the two-phase collision resolution, then perform the end-of-tick
checks.  A single `random.random` counter is threaded through the three
phases in program order. -/
def runTick (units : List Unit) (rnd : ℕ → ℚ) (rij : ℕ → ℕ) (steps : ℕ) :
    Except String (List Unit × Outcome) :=
  match SpatialTree.build units with
  | .error e => .error e
  | .ok tree =>
    let tp := targetLoop units rnd rij units 0 0
    let mv := moveAll tree tp.1 rnd tp.2.1
    let u3 := collisionPhase tree mv.1 rnd mv.2
    .ok (u3, tickOutcome u3 (steps + 1))

/-! ### Helper lemmas -/

lemma getD_set_ne (s : List Unit) (a : Unit) {i j : ℕ} (h : i ≠ j) :
    (s.set i a).getD j default = s.getD j default := by
  simp [List.getD_eq_getElem?_getD, List.getElem?_set_ne h]

lemma getD_set_self (s : List Unit) (a : Unit) {i : ℕ} (h : i < s.length) :
    (s.set i a).getD i default = a := by
  simp [List.getD_eq_getElem?_getD, List.getElem?_set_self h]

lemma getD_eq_getElem (s : List Unit) {i : ℕ} (h : i < s.length) :
    s.getD i default = s[i] := by
  simp [List.getD_eq_getElem?_getD, List.getElem?_eq_getElem h]

lemma getD_mem (s : List Unit) {i : ℕ} (h : i < s.length) :
    s.getD i default ∈ s := by
  rw [getD_eq_getElem s h]
  exact List.getElem_mem h

lemma mem_insertByKey {key : Unit → ℚ} {a v : Unit} :
    ∀ {l : List Unit}, v ∈ insertByKey key a l ↔ v = a ∨ v ∈ l
  | [] => by simp [insertByKey]
  | b :: bs => by
    simp only [insertByKey]
    split
    · simp
    · simp [mem_insertByKey (l := bs)]
      tauto

lemma mem_sortByKey {key : Unit → ℚ} {v : Unit} :
    ∀ {l : List Unit}, v ∈ sortByKey key l ↔ v ∈ l
  | [] => by simp [sortByKey]
  | a :: as => by
    simp [sortByKey, mem_insertByKey, mem_sortByKey (l := as)]

lemma sortByKey_ne_nil {key : Unit → ℚ} {l : List Unit} (h : l ≠ []) :
    sortByKey key l ≠ [] := by
  match l, h with
  | a :: as, _ =>
    intro hc
    have : a ∈ sortByKey key (a :: as) := mem_sortByKey.mpr (by simp)
    rw [hc] at this
    exact (List.not_mem_nil a) this

lemma sortByKey_head_min {key : Unit → ℚ} :
    ∀ {l h : _} {tl : List Unit}, sortByKey key l = h :: tl →
      ∀ v ∈ l, key h ≤ key v := by
  intro l
  induction l with
  | nil => intro h tl hs v hv; simp at hv
  | cons a as ih =>
    intro h tl hs v hv
    simp only [sortByKey] at hs
    rcases List.mem_cons.mp hv with rfl | hvas
    · -- v = a: compare with the head of the insertion
      rcases hsas : sortByKey key as with _ | ⟨b, bs⟩
      · rw [hsas] at hs
        simp only [insertByKey] at hs
        cases hs
        exact le_rfl
      · rw [hsas] at hs
        simp only [insertByKey] at hs
        split at hs
        · cases hs
          exact le_rfl
        · rename_i hab
          cases hs
          exact le_of_not_le hab
    · -- v ∈ as: use the IH on the sorted tail
      rcases hsas : sortByKey key as with _ | ⟨b, bs⟩
      · have : v ∈ sortByKey key as := mem_sortByKey.mpr hvas
        rw [hsas] at this; simp at this
      · have hbv : key b ≤ key v := ih hsas v hvas
        rw [hsas] at hs
        simp only [insertByKey] at hs
        split at hs
        · rename_i hab
          cases hs
          exact le_trans hab hbv
        · cases hs
          exact hbv

lemma mem_query_radius {t : SpatialTree} {state : List Unit} {u v : Unit}
    {radius : ℚ} :
    v ∈ query_radius t state u radius ↔
      ∃ i, i < t.positions.length ∧
        distSq (t.positions.getD i (0, 0)) (u.x, u.y) ≤ radius ^ 2 ∧
        (state.getD i default).id ≠ u.id ∧ state.getD i default = v := by
  simp only [query_radius, List.mem_filterMap, List.mem_range]
  constructor
  · rintro ⟨i, hi, hf⟩
    split at hf
    · split at hf
      · simp at hf
      · exact ⟨i, hi, by assumption, by assumption, by simpa using hf⟩
    · simp at hf
  · rintro ⟨i, hi, hd, hne, hv⟩
    exact ⟨i, hi, by rw [if_pos hd, if_neg hne, hv]⟩

lemma mem_query_by_type {t : SpatialTree} {state : List Unit} {u v : Unit}
    {radius : ℚ} {tt : ℕ} :
    v ∈ query_by_type t state u radius tt ↔
      v ∈ query_radius t state u radius ∧ v.unit_type = tt := by
  simp [query_by_type, List.mem_filter]

lemma move_towards_target_unit_type (t : SpatialTree) (state : List Unit)
    (u : Unit) (rnd : ℕ → ℚ) (k : ℕ) :
    (move_towards_target t state u rnd k).1.unit_type = u.unit_type := rfl

lemma applyBounce_x (u : Unit) (v : ℚ × ℚ) :
    (applyBounce u v).x
      = (bounceAxis UNIT_RADIUS (WIDTH - UNIT_RADIUS) (u.x + v.1) v.1).1 := rfl

lemma applyBounce_y (u : Unit) (v : ℚ × ℚ) :
    (applyBounce u v).y
      = (bounceAxis UNIT_RADIUS (HEIGHT - UNIT_RADIUS) (u.y + v.2) v.2).1 := rfl

lemma moveLoop_append (t : SpatialTree) (rnd : ℕ → ℚ) (as bs : List ℕ) :
    ∀ (s : List Unit) (k : ℕ),
      moveLoop t rnd (as ++ bs) s k
        = moveLoop t rnd bs (moveLoop t rnd as s k).1 (moveLoop t rnd as s k).2 := by
  induction as with
  | nil => intro s k; rfl
  | cons i rest ih => intro s k; simp only [List.cons_append, moveLoop]; exact ih _ _

lemma moveLoop_length (t : SpatialTree) (rnd : ℕ → ℚ) :
    ∀ (is : List ℕ) (s : List Unit) (k : ℕ),
      (moveLoop t rnd is s k).1.length = s.length := by
  intro is
  induction is with
  | nil => intro s k; rfl
  | cons i rest ih =>
    intro s k
    simp only [moveLoop]
    rw [ih]
    exact List.length_set ..

lemma moveLoop_getD_not_mem (t : SpatialTree) (rnd : ℕ → ℚ) {i : ℕ} :
    ∀ {is : List ℕ} (s : List Unit) (k : ℕ), (∀ j ∈ is, j ≠ i) →
      (moveLoop t rnd is s k).1.getD i default = s.getD i default := by
  intro is
  induction is with
  | nil => intro s k _; rfl
  | cons j rest ih =>
    intro s k h
    simp only [moveLoop]
    rw [ih _ _ (fun a ha => h a (List.mem_cons_of_mem j ha))]
    exact getD_set_ne s _ (h j (List.mem_cons_self j rest))

lemma moveLoop_forall_type (t : SpatialTree) (rnd : ℕ → ℚ) {tt : ℕ} :
    ∀ (is : List ℕ) (s : List Unit) (k : ℕ),
      (∀ u ∈ s, u.unit_type = tt) →
      ∀ u ∈ (moveLoop t rnd is s k).1, u.unit_type = tt := by
  intro is
  induction is with
  | nil => intro s k hs; exact hs
  | cons i rest ih =>
    intro s k hs
    simp only [moveLoop]
    refine ih _ _ (fun u hu => ?_)
    by_cases hi : i < s.length
    · rcases List.mem_or_eq_of_mem_set hu with hmem | rfl
      · exact hs u hmem
      · rw [move_towards_target_unit_type]
        exact hs _ (getD_mem s hi)
    · rw [List.set_eq_of_length_le (le_of_not_lt hi)] at hu
      exact hs u hu

lemma targetLoop_length (state : List Unit) (rnd : ℕ → ℚ) (rij : ℕ → ℕ) :
    ∀ (todo : List Unit) (kr ki : ℕ),
      (targetLoop state rnd rij todo kr ki).1.length = todo.length := by
  intro todo
  induction todo with
  | nil => intro kr ki; rfl
  | cons u rest ih => intro kr ki; simp only [targetLoop]; simp [ih]

lemma targetLoop_forall_type (state : List Unit) (rnd : ℕ → ℚ) (rij : ℕ → ℕ)
    {tt : ℕ} :
    ∀ (todo : List Unit) (kr ki : ℕ), (∀ u ∈ todo, u.unit_type = tt) →
      ∀ u ∈ (targetLoop state rnd rij todo kr ki).1, u.unit_type = tt := by
  intro todo
  induction todo with
  | nil => intro kr ki _ u hu; simp [targetLoop] at hu
  | cons w rest ih =>
    intro kr ki h u hu
    simp only [targetLoop, List.mem_cons] at hu
    rcases hu with rfl | hu
    · exact h w (List.mem_cons_self w rest)
    · exact ih _ _ (fun v hv => h v (List.mem_cons_of_mem w hv)) u hu

lemma collideLoop_none_nil (u : Unit) (rnd : ℕ → ℚ) (k : ℕ) :
    collideLoop u rnd [] k = (none, k) := rfl

lemma query_by_type_eq_nil {t : SpatialTree} {state : List Unit} {u : Unit}
    {radius : ℚ} {tt pt : ℕ} (hlen : t.positions.length = state.length)
    (hall : ∀ w ∈ state, w.unit_type = tt) (hne : pt ≠ tt) :
    query_by_type t state u radius pt = [] := by
  rw [List.eq_nil_iff_forall_not_mem]
  intro v hv
  rcases mem_query_by_type.mp hv with ⟨hqr, hvt⟩
  rcases mem_query_radius.mp hqr with ⟨i, hi, _, _, hveq⟩
  have hvmem : v ∈ state := by
    rw [← hveq]; exact getD_mem state (hlen ▸ hi)
  exact hne (hvt ▸ hall v hvmem)

lemma collisionNewTypes_eq_nil {t : SpatialTree} {state : List Unit}
    {rnd : ℕ → ℚ} :
    ∀ {is : List ℕ} {k : ℕ},
      (∀ i ∈ is,
        query_by_type t state (state.getD i default) (MIN_DISTANCE * 2)
          (predator_type (state.getD i default).unit_type) = []) →
      collisionNewTypes t state rnd is k = [] := by
  intro is
  induction is with
  | nil => intro k _; rfl
  | cons i rest ih =>
    intro k h
    have hq := h i (List.mem_cons_self i rest)
    simp only [collisionNewTypes, check_collision, hq, collideLoop_none_nil]
    exact ih (fun j hj => h j (List.mem_cons_of_mem i hj))

lemma applyNewTypes_nil (state : List Unit) : applyNewTypes state [] = state := rfl

lemma applyNewTypes_length :
    ∀ (nts : List (ℕ × ℕ)) (state : List Unit),
      (applyNewTypes state nts).length = state.length := by
  intro nts
  induction nts with
  | nil => intro state; rfl
  | cons p rest ih =>
    intro state
    simp only [applyNewTypes, List.foldl_cons] at *
    rw [ih]
    exact List.length_set ..

lemma applyNewTypes_append (state : List Unit) (as bs : List (ℕ × ℕ)) :
    applyNewTypes state (as ++ bs) = applyNewTypes (applyNewTypes state as) bs :=
  List.foldl_append ..

lemma applyNewTypes_getD_not_key {i : ℕ} :
    ∀ {nts : List (ℕ × ℕ)} (state : List Unit), (∀ p ∈ nts, p.1 ≠ i) →
      (applyNewTypes state nts).getD i default = state.getD i default := by
  intro nts
  induction nts with
  | nil => intro state _; rfl
  | cons p rest ih =>
    intro state h
    simp only [applyNewTypes, List.foldl_cons] at *
    rw [ih _ (fun q hq => h q (List.mem_cons_of_mem p hq))]
    exact getD_set_ne state _ (h p (List.mem_cons_self p rest))

lemma collisionNewTypes_append (t : SpatialTree) (state : List Unit)
    (rnd : ℕ → ℚ) (as bs : List ℕ) :
    ∀ k, collisionNewTypes t state rnd (as ++ bs) k
      = collisionNewTypes t state rnd as k
        ++ collisionNewTypes t state rnd bs (collisionCounterFrom t state rnd as k) := by
  induction as with
  | nil => intro k; rfl
  | cons i rest ih =>
    intro k
    simp only [List.cons_append, collisionNewTypes, collisionCounterFrom]
    rcases hres : (check_collision t state (state.getD i default) rnd k).1 with _ | nt
    · exact ih _
    · simp [ih _]

lemma collisionNewTypes_keys (t : SpatialTree) (state : List Unit)
    (rnd : ℕ → ℚ) :
    ∀ (is : List ℕ) (k : ℕ) (p : ℕ × ℕ),
      p ∈ collisionNewTypes t state rnd is k → p.1 ∈ is := by
  intro is
  induction is with
  | nil => intro k p hp; simp [collisionNewTypes] at hp
  | cons i rest ih =>
    intro k p hp
    simp only [collisionNewTypes] at hp
    rcases hres : (check_collision t state (state.getD i default) rnd k).1 with _ | nt
    · rw [hres] at hp
      exact List.mem_cons_of_mem i (ih _ _ hp)
    · rw [hres] at hp
      rcases List.mem_cons.mp hp with rfl | hp
      · exact List.mem_cons_self i rest
      · exact List.mem_cons_of_mem i (ih _ _ hp)

lemma qualifying_cons_pos {u p : Unit} {rest : List Unit}
    (hq : distSq (u.x, u.y) (p.x, p.y) < MIN_DISTANCE ^ 2) :
    qualifying u (p :: rest) = p :: qualifying u rest := by
  simp [qualifying, List.filter_cons, hq]

lemma qualifying_cons_neg {u p : Unit} {rest : List Unit}
    (hq : ¬distSq (u.x, u.y) (p.x, p.y) < MIN_DISTANCE ^ 2) :
    qualifying u (p :: rest) = qualifying u rest := by
  simp [qualifying, List.filter_cons, hq]

lemma collideLoop_some_iff (u : Unit) (rnd : ℕ → ℚ) :
    ∀ (preds : List Unit) (k : ℕ),
      ((collideLoop u rnd preds k).1 = some (predator_type u.unit_type) ↔
        ∃ i < (qualifying u preds).length, rnd (k + i) < COLLISION_CHANCE) := by
  intro preds
  induction preds with
  | nil => intro k; simp [collideLoop, qualifying]
  | cons p rest ih =>
    intro k
    by_cases hq : distSq (u.x, u.y) (p.x, p.y) < MIN_DISTANCE ^ 2
    · rw [qualifying_cons_pos hq, List.length_cons]
      by_cases hr : rnd k < COLLISION_CHANCE
      · simp only [collideLoop, if_pos hq, if_pos hr]
        constructor
        · intro _; exact ⟨0, Nat.succ_pos _, by simpa using hr⟩
        · intro _; trivial
      · simp only [collideLoop, if_pos hq, if_neg hr]
        rw [ih (k + 1)]
        constructor
        · rintro ⟨i, hi, hlt⟩
          exact ⟨i + 1, by omega, by convert hlt using 2; omega⟩
        · rintro ⟨i, hi, hlt⟩
          match i with
          | 0 => exact absurd (by simpa using hlt) hr
          | i' + 1 => exact ⟨i', by omega, by convert hlt using 2; omega⟩
    · rw [qualifying_cons_neg hq]
      simp only [collideLoop, if_neg hq]
      exact ih k

lemma collideLoop_counter_le (u : Unit) (rnd : ℕ → ℚ) :
    ∀ (preds : List Unit) (k : ℕ),
      (collideLoop u rnd preds k).2 ≤ k + (qualifying u preds).length := by
  intro preds
  induction preds with
  | nil => intro k; simp [collideLoop, qualifying]
  | cons p rest ih =>
    intro k
    by_cases hq : distSq (u.x, u.y) (p.x, p.y) < MIN_DISTANCE ^ 2
    · rw [qualifying_cons_pos hq, List.length_cons]
      by_cases hr : rnd k < COLLISION_CHANCE
      · simp only [collideLoop, if_pos hq, if_pos hr]
        omega
      · simp only [collideLoop, if_pos hq, if_neg hr]
        have := ih (k + 1)
        omega
    · rw [qualifying_cons_neg hq]
      simp only [collideLoop, if_neg hq]
      exact ih k

lemma collideLoop_some_shape (u : Unit) (rnd : ℕ → ℚ) :
    ∀ (preds : List Unit) (k : ℕ) (nt : ℕ),
      (collideLoop u rnd preds k).1 = some nt →
      nt = predator_type u.unit_type ∧
        ∃ p ∈ preds, distSq (u.x, u.y) (p.x, p.y) < MIN_DISTANCE ^ 2 := by
  intro preds
  induction preds with
  | nil => intro k nt h; simp [collideLoop] at h
  | cons p rest ih =>
    intro k nt h
    by_cases hq : distSq (u.x, u.y) (p.x, p.y) < MIN_DISTANCE ^ 2
    · by_cases hr : rnd k < COLLISION_CHANCE
      · simp only [collideLoop, if_pos hq, if_pos hr] at h
        cases h
        exact ⟨rfl, p, List.mem_cons_self p rest, hq⟩
      · simp only [collideLoop, if_pos hq, if_neg hr] at h
        rcases ih _ _ h with ⟨hnt, q, hqmem, hqd⟩
        exact ⟨hnt, q, List.mem_cons_of_mem p hqmem, hqd⟩
    · simp only [collideLoop, if_neg hq] at h
      rcases ih _ _ h with ⟨hnt, q, hqmem, hqd⟩
      exact ⟨hnt, q, List.mem_cons_of_mem p hqmem, hqd⟩

lemma moveAll_getD_eq (t : SpatialTree) (s : List Unit) (rnd : ℕ → ℚ)
    (k : ℕ) {i : ℕ} (h : i < s.length) :
    (moveAll t s rnd k).1.getD i default
      = (move_towards_target t (moveUpTo t s rnd k i).1
          ((moveUpTo t s rnd k i).1.getD i default) rnd (moveUpTo t s rnd k i).2).1 := by
  have hsplit : List.range s.length
      = (List.range i ++ [i]) ++ (List.range (s.length - (i + 1))).map ((i + 1) + ·) := by
    rw [← List.range_succ, ← List.range_add]
    congr 1
    omega
  rw [moveAll, hsplit, moveLoop_append, moveLoop_append]
  rw [show moveLoop t rnd [i] (moveLoop t rnd (List.range i) s k).1
        (moveLoop t rnd (List.range i) s k).2
      = ((moveLoop t rnd (List.range i) s k).1.set i
          (move_towards_target t (moveLoop t rnd (List.range i) s k).1
            ((moveLoop t rnd (List.range i) s k).1.getD i default) rnd
            (moveLoop t rnd (List.range i) s k).2).1,
         (move_towards_target t (moveLoop t rnd (List.range i) s k).1
            ((moveLoop t rnd (List.range i) s k).1.getD i default) rnd
            (moveLoop t rnd (List.range i) s k).2).2) from rfl]
  rw [moveLoop_getD_not_mem]
  · rw [moveUpTo]
    exact getD_set_self _ _ (by rw [moveLoop_length]; exact h)
  · intro j hj
    simp only [List.mem_map, List.mem_range] at hj
    omega

lemma moveUpTo_getD_self (t : SpatialTree) (s : List Unit) (rnd : ℕ → ℚ)
    (k : ℕ) (i : ℕ) :
    (moveUpTo t s rnd k i).1.getD i default = s.getD i default := by
  rw [moveUpTo]
  exact moveLoop_getD_not_mem t rnd s k (fun j hj => by
    simp only [List.mem_range] at hj; omega)

lemma getD_mem_pair (s : List (Unit × ℚ)) {i : ℕ} (h : i < s.length) :
    s.getD i default ∈ s := by
  rw [List.getD_eq_getElem?_getD, List.getElem?_eq_getElem h]
  exact List.getElem_mem h

lemma mem_intRange {a b i : ℤ} : i ∈ intRange a b ↔ a ≤ i ∧ i < b := by
  simp only [intRange, List.mem_map, List.mem_range]
  constructor
  · rintro ⟨n, hn, rfl⟩; omega
  · rintro ⟨h1, h2⟩; exact ⟨(i - a).toNat, by omega, by omega⟩

lemma length_intRange (a b : ℤ) : (intRange a b).length = (b - a).toNat := by
  rw [intRange, List.length_map, List.length_range]

lemma buildUnits_mem_pos (pos : ℕ → ℚ × ℚ) (totN : ℕ) :
    ∀ (idx : List (ℤ × ℕ)) (nid : ℕ) (l : List Unit),
      buildUnits pos totN idx nid = .ok l →
      ∀ u ∈ l, ∃ n, u.x = (pos n).1 ∧ u.y = (pos n).2 := by
  intro idx
  induction idx with
  | nil =>
    intro nid l h u hu
    simp only [buildUnits] at h
    cases h
    simp at hu
  | cons p rest ih =>
    intro nid l h u hu
    obtain ⟨i, t⟩ := p
    simp only [buildUnits] at h
    rcases hni : npIndex totN i with _ | n
    · rw [hni] at h; cases h
    · rw [hni] at h
      rcases hrec : buildUnits pos totN rest (nid + 1) with e | l'
      · rw [hrec] at h; cases h
      · rw [hrec] at h
        cases h
        rcases List.mem_cons.mp hu with rfl | hu'
        · exact ⟨n, rfl, rfl⟩
        · exact ih _ _ hrec u hu'

lemma buildUnits_ok_of_valid (pos : ℕ → ℚ × ℚ) (totN : ℕ) :
    ∀ (idx : List (ℤ × ℕ)) (nid : ℕ),
      (∀ p ∈ idx, (npIndex totN p.1).isSome) →
      ∃ l, buildUnits pos totN idx nid = .ok l ∧ l.length = idx.length := by
  intro idx
  induction idx with
  | nil => intro nid _; exact ⟨[], rfl, rfl⟩
  | cons p rest ih =>
    intro nid h
    obtain ⟨i, t⟩ := p
    have hi := h (i, t) (List.mem_cons_self _ _)
    rcases hni : npIndex totN i with _ | n
    · rw [hni] at hi; simp at hi
    · rcases ih (nid + 1) (fun q hq => h q (List.mem_cons_of_mem _ hq)) with ⟨l, hl, hlen⟩
      refine ⟨⟨nid, t, (pos n).1, (pos n).2, 0, 0, none⟩ :: l, ?_, by simp [hlen]⟩
      simp only [buildUnits, hni, hl]

lemma buildUnits_ok_or_indexError (pos : ℕ → ℚ × ℚ) (totN : ℕ) :
    ∀ (idx : List (ℤ × ℕ)) (nid : ℕ),
      (∃ l, buildUnits pos totN idx nid = .ok l) ∨
        buildUnits pos totN idx nid = .error "IndexError" := by
  intro idx
  induction idx with
  | nil => intro nid; exact .inl ⟨[], rfl⟩
  | cons p rest ih =>
    intro nid
    obtain ⟨i, t⟩ := p
    rcases hni : npIndex totN i with _ | n
    · right
      simp only [buildUnits, hni]
    · rcases ih (nid + 1) with ⟨l, hl⟩ | he
      · exact .inl ⟨⟨nid, t, (pos n).1, (pos n).2, 0, 0, none⟩ :: l,
          by simp only [buildUnits, hni, hl]⟩
      · right
        simp only [buildUnits, hni, he]

lemma mem_find_nearest_of_type {state : List Unit} {u : Unit} {tt k : ℕ}
    {pr : Unit × ℚ} (h : pr ∈ find_nearest_of_type state u tt k) :
    pr.1 ∈ state ∧ pr.1.unit_type = tt ∧ pr.1.id ≠ u.id := by
  simp only [find_nearest_of_type] at h
  split at h
  · simp at h
  · simp only [List.mem_map] at h
    rcases h with ⟨v, hv, rfl⟩
    have hv' : v ∈ sortByKey (fun v => distSq (v.x, v.y) (u.x, u.y))
        (state.filter (fun v => v.unit_type = tt ∧ v.id ≠ u.id)) :=
      List.take_subset _ _ hv
    have := mem_sortByKey.mp hv'
    rcases List.mem_filter.mp this with ⟨hmem, hcond⟩
    simp only [decide_eq_true_eq] at hcond
    exact ⟨hmem, hcond.1, hcond.2⟩

lemma length_insertByKey (key : Unit → ℚ) (a : Unit) :
    ∀ (l : List Unit), (insertByKey key a l).length = l.length + 1 := by
  intro l
  induction l with
  | nil => rfl
  | cons b bs ih =>
    simp only [insertByKey]
    split
    · rfl
    · simp [ih]

lemma length_sortByKey (key : Unit → ℚ) :
    ∀ (l : List Unit), (sortByKey key l).length = l.length := by
  intro l
  induction l with
  | nil => rfl
  | cons a as ih => simp [sortByKey, length_insertByKey, ih]

lemma find_nearest_head_min {state : List Unit} {u : Unit} {tt kk : ℕ}
    (hk : 1 ≤ kk) (hne : find_nearest_of_type state u tt kk ≠ []) :
    ∀ v ∈ state, v.unit_type = tt → v.id ≠ u.id →
      distSq (((find_nearest_of_type state u tt kk).getD 0 default).1.x,
              ((find_nearest_of_type state u tt kk).getD 0 default).1.y) (u.x, u.y)
        ≤ distSq (v.x, v.y) (u.x, u.y) := by
  intro v hv hvt hvid
  have hvtu : v ∈ state.filter (fun w => w.unit_type = tt ∧ w.id ≠ u.id) :=
    List.mem_filter.mpr ⟨hv, by simp [hvt, hvid]⟩
  simp only [find_nearest_of_type] at hne ⊢
  rcases htu : state.filter (fun w => w.unit_type = tt ∧ w.id ≠ u.id) with _ | ⟨w, ws⟩
  · rw [htu] at hvtu; simp at hvtu
  · rw [htu] at hne ⊢
    simp only [List.isEmpty_cons, ite_false, Bool.false_eq_true, if_neg] at hne ⊢
    rcases hsorted : sortByKey (fun z => distSq (z.x, z.y) (u.x, u.y)) (w :: ws)
      with _ | ⟨h, tl⟩
    · exact absurd hsorted (sortByKey_ne_nil (by simp))
    · have hk1 : ∃ m, min kk (w :: ws).length = m + 1 := by
        have : 1 ≤ min kk (w :: ws).length := le_min hk (by simp)
        exact ⟨min kk (w :: ws).length - 1, by omega⟩
      rcases hk1 with ⟨m, hm⟩
      rw [hm, List.take_succ_cons]
      simp only [List.map_cons, List.getD_cons_zero]
      have hvmem : v ∈ w :: ws := htu ▸ hvtu
      exact sortByKey_head_min hsorted v hvmem

lemma bounceAxis_mem {lo hi : ℚ} (pos vel : ℚ) (h : lo ≤ hi) :
    lo ≤ (bounceAxis lo hi pos vel).1 ∧ (bounceAxis lo hi pos vel).1 ≤ hi := by
  unfold bounceAxis
  split_ifs with h1 h2 <;> constructor <;> simp <;> linarith

lemma move_bounds (t : SpatialTree) (state : List Unit) (u : Unit)
    (rnd : ℕ → ℚ) (k : ℕ) :
    UNIT_RADIUS ≤ (move_towards_target t state u rnd k).1.x ∧
    (move_towards_target t state u rnd k).1.x ≤ WIDTH - UNIT_RADIUS ∧
    UNIT_RADIUS ≤ (move_towards_target t state u rnd k).1.y ∧
    (move_towards_target t state u rnd k).1.y ≤ HEIGHT - UNIT_RADIUS := by
  have hwd : UNIT_RADIUS ≤ WIDTH - UNIT_RADIUS := by norm_num [UNIT_RADIUS, WIDTH]
  have hht : UNIT_RADIUS ≤ HEIGHT - UNIT_RADIUS := by norm_num [UNIT_RADIUS, HEIGHT]
  have hx := bounceAxis_mem (u.x + (moveVelocity t state u rnd k).1)
    (moveVelocity t state u rnd k).1 hwd
  have hy := bounceAxis_mem (u.y + (moveVelocity t state u rnd k).2)
    (moveVelocity t state u rnd k).2 hht
  exact ⟨hx.1, hx.2, hy.1, hy.2⟩

lemma predator_type_ne (tp : ℕ) : predator_type tp ≠ tp := by
  unfold predator_type; omega

/-! ### Claim theorems -/

/-- C4: `prey_type(t) = (t+2) mod 3` and `predator_type(t) = (t+1) mod 3`
are the relations used uniformly by targeting (`find_target`), threat
repulsion (`find_threats`) and collision (`check_collision`);
`prey_type (predator_type t) = t` for every type, and the 3-cycle has no
fixed points. -/
theorem c4_cyclic_relation :
    (∀ tp, tp < 3 → prey_type (predator_type tp) = tp) ∧
    (∀ tp, tp < 3 → prey_type tp ≠ tp ∧ predator_type tp ≠ tp) ∧
    (∀ (state : List Unit) (u : Unit) (c : ℚ) (j : ℕ) (v : Unit),
      j < (find_nearest_of_type state u (prey_type u.unit_type) 3).length →
      find_target state u c j = some v → v.unit_type = prey_type u.unit_type) ∧
    (∀ (t : SpatialTree) (state : List Unit) (u : Unit) (th : Unit × ℚ),
      th ∈ find_threats t state u → th.1.unit_type = predator_type u.unit_type) ∧
    (∀ (t : SpatialTree) (state : List Unit) (u : Unit) (rnd : ℕ → ℚ) (k nt : ℕ),
      (check_collision t state u rnd k).1 = some nt →
      nt = predator_type u.unit_type) := by
  refine ⟨by decide, by decide, ?_, ?_, ?_⟩
  · intro state u c j v hj hv
    simp only [find_target] at hv
    split at hv
    · cases hv
    · rename_i hpt
      have hlen : 0 < (find_nearest_of_type state u (prey_type u.unit_type) 3).length := by
        omega
      split at hv
      · cases hv
        exact (mem_find_nearest_of_type (getD_mem_pair _ hlen)).2.1
      · cases hv
        exact (mem_find_nearest_of_type (getD_mem_pair _ hj)).2.1
  · intro t state u th hth
    simp only [find_threats, List.mem_map] at hth
    rcases hth with ⟨w, hw, rfl⟩
    exact (mem_query_by_type.mp hw).2
  · intro t state u rnd k nt h
    exact (collideLoop_some_shape u rnd _ k nt h).1

/-- C4 witness: the cyclic facts at type Rock (1), targeting at a concrete
two-unit population (a Scissors hunting its Paper prey), and the collision
type at a concrete contact. -/
theorem c4_cyclic_relation_witness :
    prey_type (predator_type 1) = 1 ∧
    (prey_type 1 ≠ 1 ∧ predator_type 1 ≠ 1) ∧
    ((⟨1, 2, 3, 4, 0, 0, none⟩ : Unit).unit_type = prey_type 0) := by
  refine ⟨c4_cyclic_relation.1 1 (by decide), c4_cyclic_relation.2.1 1 (by decide), ?_⟩
  exact c4_cyclic_relation.2.2.1
    [⟨0, 0, 0, 0, 0, 0, none⟩, ⟨1, 2, 3, 4, 0, 0, none⟩]
    ⟨0, 0, 0, 0, 0, 0, none⟩ (1/2) 0 ⟨1, 2, 3, 4, 0, 0, none⟩
    (by with_unfolding_all decide) (by with_unfolding_all decide)

/-- C5 counterexample: a unit at Euclidean distance exactly equal to the
radius is returned by `query_radius` (scipy's `query_ball_point` test is
inclusive), contradicting the claim that the test is strict (`<`). -/
theorem c5_counterexample :
    (⟨1, 0, 3, 4, 0, 0, none⟩ : Unit) ∈
      query_radius ⟨[(0, 0), (3, 4)]⟩
        [⟨0, 0, 0, 0, 0, 0, none⟩, ⟨1, 0, 3, 4, 0, 0, none⟩]
        ⟨0, 0, 0, 0, 0, 0, none⟩ 5 ∧
    ¬ distSq ((3 : ℚ), (4 : ℚ)) ((0 : ℚ), (0 : ℚ)) < 5 ^ 2 := by
  constructor
  · with_unfolding_all decide
  · with_unfolding_all decide

/-- C5 amended: `query_radius` returns exactly the units other than the
querying one (by identity, even when the type filter matches) whose
build-time tree position is within Euclidean distance less than **or
equal to** the radius of the querying unit's position, and
`query_by_type` is that result filtered by type; the querying unit itself
is never included. -/
theorem c5_amended :
    ∀ (t : SpatialTree) (state : List Unit) (u : Unit) (radius : ℚ) (v : Unit),
      (v ∈ query_radius t state u radius ↔
        ∃ i, i < t.positions.length ∧
          distSq (t.positions.getD i (0, 0)) (u.x, u.y) ≤ radius ^ 2 ∧
          (state.getD i default).id ≠ u.id ∧ state.getD i default = v) ∧
      (∀ tt, v ∈ query_by_type t state u radius tt ↔
        v ∈ query_radius t state u radius ∧ v.unit_type = tt) ∧
      u ∉ query_radius t state u radius ∧
      (∀ tt, u ∉ query_by_type t state u radius tt) := by
  intro t state u radius v
  have hself : u ∉ query_radius t state u radius := by
    intro hu
    rcases mem_query_radius.mp hu with ⟨i, _, _, hne, heq⟩
    exact hne (by rw [heq])
  refine ⟨mem_query_radius, fun tt => mem_query_by_type, hself, fun tt hu => ?_⟩
  exact hself (mem_query_by_type.mp hu).1

/-- C5 amended witness: the inclusive-boundary unit of the counterexample
is a member via the characterization, and the querying unit is excluded. -/
theorem c5_amended_witness :
    (⟨1, 0, 3, 4, 0, 0, none⟩ : Unit) ∈
      query_radius ⟨[(0, 0), (3, 4)]⟩
        [⟨0, 0, 0, 0, 0, 0, none⟩, ⟨1, 0, 3, 4, 0, 0, none⟩]
        ⟨0, 0, 0, 0, 0, 0, none⟩ 5 ∧
    (⟨0, 0, 0, 0, 0, 0, none⟩ : Unit) ∉
      query_by_type ⟨[(0, 0), (3, 4)]⟩
        [⟨0, 0, 0, 0, 0, 0, none⟩, ⟨1, 0, 3, 4, 0, 0, none⟩]
        ⟨0, 0, 0, 0, 0, 0, none⟩ 5 0 := by
  constructor
  · exact (c5_amended ⟨[(0, 0), (3, 4)]⟩
      [⟨0, 0, 0, 0, 0, 0, none⟩, ⟨1, 0, 3, 4, 0, 0, none⟩]
      ⟨0, 0, 0, 0, 0, 0, none⟩ 5 ⟨1, 0, 3, 4, 0, 0, none⟩).1.mpr
      ⟨1, by decide, by with_unfolding_all decide, by decide, by decide⟩
  · exact (c5_amended ⟨[(0, 0), (3, 4)]⟩
      [⟨0, 0, 0, 0, 0, 0, none⟩, ⟨1, 0, 3, 4, 0, 0, none⟩]
      ⟨0, 0, 0, 0, 0, 0, none⟩ 5 ⟨0, 0, 0, 0, 0, 0, none⟩).2.2.2 0

/-- C2 counterexample: with two qualifying predators the resolver draws
twice (the returned counter advances from 0 to 2) and converts on the
second draw, while the same draw sequence with a single qualifying
predator (one qualifying contact all the same) produces no conversion —
so there is not at most one draw per agent, and the outcome depends on
how many predators qualify, not merely on whether one does. -/
theorem c2_counterexample :
    check_collision ⟨[(0, 0), (0, 5), (0, 8)]⟩
        [⟨0, 0, 0, 0, 0, 0, none⟩, ⟨1, 1, 0, 5, 0, 0, none⟩, ⟨2, 1, 0, 8, 0, 0, none⟩]
        ⟨0, 0, 0, 0, 0, 0, none⟩ (fun n => if n = 0 then 1/2 else 1/10) 0
      = (some 1, 2) ∧
    check_collision ⟨[(0, 0), (0, 5)]⟩
        [⟨0, 0, 0, 0, 0, 0, none⟩, ⟨1, 1, 0, 5, 0, 0, none⟩]
        ⟨0, 0, 0, 0, 0, 0, none⟩ (fun n => if n = 0 then 1/2 else 1/10) 0
      = (none, 1) ∧
    (qualifying ⟨0, 0, 0, 0, 0, 0, none⟩
        (query_by_type ⟨[(0, 0), (0, 5), (0, 8)]⟩
          [⟨0, 0, 0, 0, 0, 0, none⟩, ⟨1, 1, 0, 5, 0, 0, none⟩, ⟨2, 1, 0, 8, 0, 0, none⟩]
          ⟨0, 0, 0, 0, 0, 0, none⟩ (MIN_DISTANCE * 2) (predator_type 0))).length
      = 2 ∧
    (qualifying ⟨0, 0, 0, 0, 0, 0, none⟩
        (query_by_type ⟨[(0, 0), (0, 5)]⟩
          [⟨0, 0, 0, 0, 0, 0, none⟩, ⟨1, 1, 0, 5, 0, 0, none⟩]
          ⟨0, 0, 0, 0, 0, 0, none⟩ (MIN_DISTANCE * 2) (predator_type 0))).length
      = 1 := by
  refine ⟨by with_unfolding_all decide, by with_unfolding_all decide,
    by with_unfolding_all decide, by with_unfolding_all decide⟩

/-- C2 amended: the resolver makes one draw per qualifying predator, in
query order, until a draw succeeds: with `m` qualifying predators it
converts (to the predator type) exactly when one of the `m` consecutive
draws falls below `COLLISION_CHANCE` (probability `1 - (1-p)^m`), it
consumes at most `m` draws, and any conversion is to the predator type. -/
theorem c2_amended :
    ∀ (t : SpatialTree) (state : List Unit) (u : Unit) (rnd : ℕ → ℚ) (k : ℕ),
      ((check_collision t state u rnd k).1 = some (predator_type u.unit_type) ↔
        ∃ i < (qualifying u (query_by_type t state u (MIN_DISTANCE * 2)
            (predator_type u.unit_type))).length,
          rnd (k + i) < COLLISION_CHANCE) ∧
      (check_collision t state u rnd k).2
        ≤ k + (qualifying u (query_by_type t state u (MIN_DISTANCE * 2)
            (predator_type u.unit_type))).length ∧
      (∀ nt, (check_collision t state u rnd k).1 = some nt →
        nt = predator_type u.unit_type) := by
  intro t state u rnd k
  exact ⟨collideLoop_some_iff u rnd _ k, collideLoop_counter_le u rnd _ k,
    fun nt h => (collideLoop_some_shape u rnd _ k nt h).1⟩

/-- C2 amended witness: at a concrete contact the characterization yields
the conversion. -/
theorem c2_amended_witness :
    (check_collision ⟨[(0, 0), (0, 5)]⟩
        [⟨0, 0, 0, 0, 0, 0, none⟩, ⟨1, 1, 0, 5, 0, 0, none⟩]
        ⟨0, 0, 0, 0, 0, 0, none⟩ (fun _ => (1 : ℚ)/10) 0).1
      = some (predator_type 0) :=
  (c2_amended ⟨[(0, 0), (0, 5)]⟩
      [⟨0, 0, 0, 0, 0, 0, none⟩, ⟨1, 1, 0, 5, 0, 0, none⟩]
      ⟨0, 0, 0, 0, 0, 0, none⟩ (fun _ => (1 : ℚ)/10) 0).1.mpr
    ⟨0, by with_unfolding_all decide, by with_unfolding_all decide⟩

/-- C10: a conversion of an agent requires a predator that passes both
filters: its position as recorded in the tick's spatial index (built
before position integration) is within `2 * MIN_DISTANCE` of the agent's
live (post-integration) position, and the exact live distance between the
two is strictly below `MIN_DISTANCE`; in particular a predator ending the
tick within `MIN_DISTANCE` but outside the stale prefilter triggers
nothing. -/
theorem c10_conversion_filters :
    ∀ (t : SpatialTree) (state : List Unit) (u : Unit) (rnd : ℕ → ℚ) (k nt : ℕ),
      (check_collision t state u rnd k).1 = some nt →
      nt = predator_type u.unit_type ∧
      ∃ i, i < t.positions.length ∧
        (state.getD i default).unit_type = predator_type u.unit_type ∧
        (state.getD i default).id ≠ u.id ∧
        distSq (t.positions.getD i (0, 0)) (u.x, u.y) ≤ (MIN_DISTANCE * 2) ^ 2 ∧
        distSq (u.x, u.y) ((state.getD i default).x, (state.getD i default).y)
          < MIN_DISTANCE ^ 2 := by
  intro t state u rnd k nt h
  rcases collideLoop_some_shape u rnd _ k nt h with ⟨hnt, p, hpmem, hpd⟩
  rcases mem_query_by_type.mp hpmem with ⟨hqr, hptype⟩
  rcases mem_query_radius.mp hqr with ⟨i, hi, hd, hne, hveq⟩
  exact ⟨hnt, i, hi, hveq ▸ hptype, hne, hd, hveq ▸ hpd⟩

/-- C10 witness: a concrete conversion, with the two filters exhibited. -/
theorem c10_conversion_filters_witness :
    (1 : ℕ) = predator_type 0 ∧
    ∃ i, i < (SpatialTree.positions ⟨[(0, 0), (0, 5)]⟩).length ∧
      (([⟨0, 0, 0, 0, 0, 0, none⟩, ⟨1, 1, 0, 5, 0, 0, none⟩].getD i
          default : Unit).unit_type = predator_type 0) ∧
      (([⟨0, 0, 0, 0, 0, 0, none⟩, ⟨1, 1, 0, 5, 0, 0, none⟩].getD i
          default : Unit).id ≠ 0) ∧
      distSq ((SpatialTree.positions ⟨[(0, 0), (0, 5)]⟩).getD i (0, 0))
          (0, 0) ≤ (MIN_DISTANCE * 2) ^ 2 ∧
      distSq ((0 : ℚ), (0 : ℚ))
          (([⟨0, 0, 0, 0, 0, 0, none⟩, ⟨1, 1, 0, 5, 0, 0, none⟩].getD i
              default : Unit).x,
           ([⟨0, 0, 0, 0, 0, 0, none⟩, ⟨1, 1, 0, 5, 0, 0, none⟩].getD i
              default : Unit).y) < MIN_DISTANCE ^ 2 :=
  c10_conversion_filters ⟨[(0, 0), (0, 5)]⟩
    [⟨0, 0, 0, 0, 0, 0, none⟩, ⟨1, 1, 0, 5, 0, 0, none⟩]
    ⟨0, 0, 0, 0, 0, 0, none⟩ (fun _ => (1 : ℚ)/10) 0 1 (by with_unfolding_all decide)

/-- C9 counterexample: initialization performs no validation, so a
negative first count does not fail: `initialize_units(-1, 2, 0)` returns
a two-unit list (numpy's negative index wrap silently duplicates a
position), refuting the claim that any negative count raises an
InvalidConfiguration error. -/
theorem c9_counterexample :
    init_units (-1) 2 0 (fun _ => (100, 100))
      = .ok [⟨0, 1, 100, 100, 0, 0, none⟩, ⟨1, 1, 100, 100, 0, 0, none⟩] := by
  with_unfolding_all rfl

/-- C9 amended: initialization validates nothing and never raises an
InvalidConfiguration error: every run either succeeds or fails with an
underlying library error — numpy's ValueError when the requested total is
negative, or an IndexError when a count block indexes past the generated
positions array.  Whenever all three counts are nonnegative it succeeds
with exactly `total` units (the fixed 960×960 bounds are never checked);
a negative count is not itself rejected: with nonnegative total it is
either silently absorbed (`initialize_units(-1, 2, 0)` returns a 2-unit
list, the counterexample) or surfaces as the library IndexError
(`initialize_units(2, -1, 0)` overruns its one-row positions array). -/
theorem c9_amended :
    (∀ (sc rc pc : ℤ) (pos : ℕ → ℚ × ℚ),
      (∃ l, init_units sc rc pc pos = .ok l) ∨
        init_units sc rc pc pos
          = .error "ValueError: negative dimensions are not allowed" ∨
        init_units sc rc pc pos = .error "IndexError") ∧
    (∀ (sc rc pc : ℤ) (pos : ℕ → ℚ × ℚ), sc + rc + pc < 0 →
      init_units sc rc pc pos
        = .error "ValueError: negative dimensions are not allowed") ∧
    (∀ (sc rc pc : ℤ) (pos : ℕ → ℚ × ℚ), 0 ≤ sc → 0 ≤ rc → 0 ≤ pc →
      ∃ l, init_units sc rc pc pos = .ok l ∧ (l.length : ℤ) = sc + rc + pc) ∧
    init_units 2 (-1) 0 (fun _ => (100, 100)) = .error "IndexError" := by
  refine ⟨?_, ?_, ?_, by with_unfolding_all rfl⟩
  · intro sc rc pc pos
    by_cases h : sc + rc + pc < 0
    · right
      left
      simp only [init_units, if_pos h]
    · simp only [init_units, if_neg h]
      rcases buildUnits_ok_or_indexError pos (sc + rc + pc).toNat
          ((intRange 0 sc).map (fun i => (i, 0)) ++
           (intRange sc (sc + rc)).map (fun i => (i, 1)) ++
           (intRange (sc + rc) (sc + rc + pc)).map (fun i => (i, 2))) 0 with
        ⟨l, hl⟩ | he
      · exact .inl ⟨l, hl⟩
      · exact .inr (.inr he)
  · intro sc rc pc pos h
    simp only [init_units, if_pos h]
  · intro sc rc pc pos hsc hrc hpc
    have htot : ¬ sc + rc + pc < 0 := by omega
    have hvalid : ∀ p ∈ ((intRange 0 sc).map (fun i => (i, 0)) ++
        (intRange sc (sc + rc)).map (fun i => (i, 1)) ++
        (intRange (sc + rc) (sc + rc + pc)).map (fun i => (i, 2)) : List (ℤ × ℕ)),
        (npIndex (sc + rc + pc).toNat p.1).isSome := by
      intro p hp
      have hbound : 0 ≤ p.1 ∧ p.1 < sc + rc + pc := by
        rcases List.mem_append.mp hp with hp' | hp'
        · rcases List.mem_append.mp hp' with hp'' | hp''
          · rcases List.mem_map.mp hp'' with ⟨i, hi, rfl⟩
            have := mem_intRange.mp hi; omega
          · rcases List.mem_map.mp hp'' with ⟨i, hi, rfl⟩
            have := mem_intRange.mp hi; omega
        · rcases List.mem_map.mp hp' with ⟨i, hi, rfl⟩
          have := mem_intRange.mp hi; omega
      simp only [npIndex, if_pos hbound.1]
      rw [if_pos (by omega)]
      rfl
    rcases buildUnits_ok_of_valid pos (sc + rc + pc).toNat _ 0 hvalid with ⟨l, hl, hlen⟩
    refine ⟨l, ?_, ?_⟩
    · simp only [init_units, if_neg htot]
      exact hl
    · rw [hlen]
      simp only [List.length_append, List.length_map, length_intRange]
      push_cast
      omega

/-- C9 amended witness: counts (1, 1, 1) succeed with three units, a
negative total fails with the library ValueError, and every run lands in
one of the three library outcomes. -/
theorem c9_amended_witness :
    (∃ l, init_units 1 1 1 (fun _ => (10, 10)) = .ok l ∧ (l.length : ℤ) = 3) ∧
    init_units (-2) 0 0 (fun _ => (10, 10))
      = .error "ValueError: negative dimensions are not allowed" ∧
    ((∃ l, init_units 2 (-1) 0 (fun _ => (100, 100)) = .ok l) ∨
      init_units 2 (-1) 0 (fun _ => (100, 100))
        = .error "ValueError: negative dimensions are not allowed" ∨
      init_units 2 (-1) 0 (fun _ => (100, 100)) = .error "IndexError") := by
  refine ⟨?_, ?_, ?_⟩
  · have h := c9_amended.2.2.1 1 1 1 (fun _ => (10, 10))
      (by decide) (by decide) (by decide)
    simpa using h
  · exact c9_amended.2.1 (-2) 0 0 (fun _ => (10, 10)) (by decide)
  · exact c9_amended.1 2 (-1) 0 (fun _ => (100, 100))

lemma collisionNewTypes_singleton (t : SpatialTree) (state : List Unit)
    (rnd : ℕ → ℚ) (i k : ℕ) :
    collisionNewTypes t state rnd [i] k
      = (match (check_collision t state (state.getD i default) rnd k).1 with
         | some nt => [(i, nt)]
         | none => []) := by
  rcases h : (check_collision t state (state.getD i default) rnd k).1 with _ | nt <;>
    simp only [collisionNewTypes, h]

lemma applyNewTypes_singleton (s : List Unit) (i nt : ℕ) :
    applyNewTypes s [(i, nt)]
      = s.set i { s.getD i default with unit_type := nt } := rfl

/-- C1: the collision phase computes every conversion from the
pre-conversion snapshot and applies them only afterwards: the final record
at index `i` is exactly the snapshot unit at `i`, converted according to a
`check_collision` evaluation that reads only the snapshot `state` (and a
draw counter determined by the snapshot alone) — no agent's converted type
can influence another agent's collision evaluation within the tick. -/
theorem c1_snapshot_conversions :
    ∀ (t : SpatialTree) (state : List Unit) (rnd : ℕ → ℚ) (k i : ℕ),
      i < state.length →
      (collisionPhase t state rnd k).length = state.length ∧
      (collisionPhase t state rnd k).getD i default =
        (match (check_collision t state (state.getD i default) rnd
            (collisionCounterFrom t state rnd (List.range i) k)).1 with
         | some nt => { state.getD i default with unit_type := nt }
         | none => state.getD i default) := by
  intro t state rnd k i hi
  refine ⟨applyNewTypes_length _ _, ?_⟩
  have hsplit : List.range state.length
      = (List.range i ++ [i])
        ++ (List.range (state.length - (i + 1))).map ((i + 1) + ·) := by
    rw [← List.range_succ, ← List.range_add]
    congr 1
    omega
  rw [collisionPhase, hsplit, collisionNewTypes_append, collisionNewTypes_append,
    applyNewTypes_append, applyNewTypes_append]
  have htail : ∀ p ∈ collisionNewTypes t state rnd
      ((List.range (state.length - (i + 1))).map ((i + 1) + ·))
      (collisionCounterFrom t state rnd (List.range i ++ [i]) k), p.1 ≠ i := by
    intro p hp
    have := collisionNewTypes_keys t state rnd _ _ p hp
    simp only [List.mem_map, List.mem_range] at this
    omega
  rw [applyNewTypes_getD_not_key _ htail]
  have hpre : ∀ p ∈ collisionNewTypes t state rnd (List.range i) k, p.1 ≠ i := by
    intro p hp
    have := collisionNewTypes_keys t state rnd _ _ p hp
    simp only [List.mem_range] at this
    omega
  have hpreD : (applyNewTypes state (collisionNewTypes t state rnd (List.range i) k)).getD
      i default = state.getD i default := applyNewTypes_getD_not_key _ hpre
  rw [collisionNewTypes_singleton]
  rcases hres : (check_collision t state (state.getD i default) rnd
      (collisionCounterFrom t state rnd (List.range i) k)).1 with _ | nt
  · exact hpreD
  · rw [applyNewTypes_singleton,
      getD_set_self _ _ (by rw [applyNewTypes_length]; exact hi), hpreD]

/-- C1 witness: a two-unit snapshot where the first agent converts. -/
theorem c1_snapshot_conversions_witness :
    (collisionPhase ⟨[(0, 0), (0, 5)]⟩
        [⟨0, 0, 0, 0, 0, 0, none⟩, ⟨1, 1, 0, 5, 0, 0, none⟩]
        (fun _ => (1 : ℚ)/10) 0).length = 2 ∧
    (collisionPhase ⟨[(0, 0), (0, 5)]⟩
        [⟨0, 0, 0, 0, 0, 0, none⟩, ⟨1, 1, 0, 5, 0, 0, none⟩]
        (fun _ => (1 : ℚ)/10) 0).getD 0 default =
      (match (check_collision ⟨[(0, 0), (0, 5)]⟩
          [⟨0, 0, 0, 0, 0, 0, none⟩, ⟨1, 1, 0, 5, 0, 0, none⟩]
          (([⟨0, 0, 0, 0, 0, 0, none⟩, ⟨1, 1, 0, 5, 0, 0, none⟩] : List Unit).getD
            0 default)
          (fun _ => (1 : ℚ)/10)
          (collisionCounterFrom ⟨[(0, 0), (0, 5)]⟩
            [⟨0, 0, 0, 0, 0, 0, none⟩, ⟨1, 1, 0, 5, 0, 0, none⟩]
            (fun _ => (1 : ℚ)/10) (List.range 0) 0)).1 with
       | some nt =>
         { ([⟨0, 0, 0, 0, 0, 0, none⟩, ⟨1, 1, 0, 5, 0, 0, none⟩] : List Unit).getD
             0 default with unit_type := nt }
       | none =>
         ([⟨0, 0, 0, 0, 0, 0, none⟩, ⟨1, 1, 0, 5, 0, 0, none⟩] : List Unit).getD
           0 default) :=
  c1_snapshot_conversions ⟨[(0, 0), (0, 5)]⟩
    [⟨0, 0, 0, 0, 0, 0, none⟩, ⟨1, 1, 0, 5, 0, 0, none⟩]
    (fun _ => (1 : ℚ)/10) 0 0 (by decide)

/-- C3: the boundary-clamp invariant.  Each per-axis clamp-and-bounce
lands in `[lo, hi]` whatever its input; hence after any single unit's
position integration and boundary handling, and after the whole movement
phase, every coordinate lies in `[UNIT_RADIUS, dimension - UNIT_RADIUS]`;
initialization (uniform draws inside the inset bounds) satisfies the same
bounds. -/
theorem c3_boundary_bounds :
    (∀ (lo hi pos vel : ℚ), lo ≤ hi →
      lo ≤ (bounceAxis lo hi pos vel).1 ∧ (bounceAxis lo hi pos vel).1 ≤ hi) ∧
    (∀ (t : SpatialTree) (state : List Unit) (u : Unit) (rnd : ℕ → ℚ) (k : ℕ),
      UNIT_RADIUS ≤ (move_towards_target t state u rnd k).1.x ∧
      (move_towards_target t state u rnd k).1.x ≤ WIDTH - UNIT_RADIUS ∧
      UNIT_RADIUS ≤ (move_towards_target t state u rnd k).1.y ∧
      (move_towards_target t state u rnd k).1.y ≤ HEIGHT - UNIT_RADIUS) ∧
    (∀ (t : SpatialTree) (s : List Unit) (rnd : ℕ → ℚ) (k : ℕ),
      ∀ w ∈ (moveAll t s rnd k).1,
        UNIT_RADIUS ≤ w.x ∧ w.x ≤ WIDTH - UNIT_RADIUS ∧
        UNIT_RADIUS ≤ w.y ∧ w.y ≤ HEIGHT - UNIT_RADIUS) ∧
    (∀ (sc rc pc : ℤ) (pos : ℕ → ℚ × ℚ) (l : List Unit),
      (∀ n, UNIT_RADIUS ≤ (pos n).1 ∧ (pos n).1 ≤ WIDTH - UNIT_RADIUS ∧
            UNIT_RADIUS ≤ (pos n).2 ∧ (pos n).2 ≤ HEIGHT - UNIT_RADIUS) →
      init_units sc rc pc pos = .ok l →
      ∀ u ∈ l, UNIT_RADIUS ≤ u.x ∧ u.x ≤ WIDTH - UNIT_RADIUS ∧
        UNIT_RADIUS ≤ u.y ∧ u.y ≤ HEIGHT - UNIT_RADIUS) := by
  refine ⟨fun lo hi pos vel h => bounceAxis_mem pos vel h,
    fun t state u rnd k => move_bounds t state u rnd k, ?_, ?_⟩
  · intro t s rnd k w hw
    rcases List.mem_iff_getElem.mp hw with ⟨n, hn, rfl⟩
    have hlen : (moveAll t s rnd k).1.length = s.length := by
      rw [moveAll]; exact moveLoop_length ..
    have hns : n < s.length := hlen ▸ hn
    rw [← getD_eq_getElem _ hn, moveAll_getD_eq t s rnd k hns]
    exact move_bounds ..
  · intro sc rc pc pos l hpos hok u hu
    simp only [init_units] at hok
    split at hok
    · cases hok
    · rcases buildUnits_mem_pos pos _ _ _ _ hok u hu with ⟨n, hx, hy⟩
      rw [hx, hy]
      exact hpos n

/-- C3 witness: the clamp at the concrete play-area bounds, and the
bounds of a concretely initialized single-agent population. -/
theorem c3_boundary_bounds_witness :
    (UNIT_RADIUS ≤ (bounceAxis UNIT_RADIUS (WIDTH - UNIT_RADIUS) 1000 2).1 ∧
      (bounceAxis UNIT_RADIUS (WIDTH - UNIT_RADIUS) 1000 2).1 ≤ WIDTH - UNIT_RADIUS) ∧
    (UNIT_RADIUS ≤ (⟨0, 0, 100, 100, 0, 0, none⟩ : Unit).x ∧
      (⟨0, 0, 100, 100, 0, 0, none⟩ : Unit).x ≤ WIDTH - UNIT_RADIUS ∧
      UNIT_RADIUS ≤ (⟨0, 0, 100, 100, 0, 0, none⟩ : Unit).y ∧
      (⟨0, 0, 100, 100, 0, 0, none⟩ : Unit).y ≤ HEIGHT - UNIT_RADIUS) := by
  constructor
  · exact c3_boundary_bounds.1 UNIT_RADIUS (WIDTH - UNIT_RADIUS) 1000 2
      (by with_unfolding_all decide)
  · have h1 : UNIT_RADIUS ≤ (100 : ℚ) := by with_unfolding_all decide
    have h2 : (100 : ℚ) ≤ WIDTH - UNIT_RADIUS := by with_unfolding_all decide
    have h3 : (100 : ℚ) ≤ HEIGHT - UNIT_RADIUS := by with_unfolding_all decide
    exact c3_boundary_bounds.2.2.2 1 0 0 (fun _ => (100, 100))
      [⟨0, 0, 100, 100, 0, 0, none⟩]
      (fun n => ⟨h1, h2, h1, h3⟩)
      (by with_unfolding_all rfl)
      ⟨0, 0, 100, 100, 0, 0, none⟩ (by decide)

/-- C6 counterexample: two same-type units 30 apart (so that only the
alignment sub-force is active) with previous-tick velocities (0, 1) and
(0, 0).  The in-place movement loop of the source gives the second unit a
zero alignment contribution, because by the time it is processed its
neighbor's velocity has already been overwritten this tick; the
double-buffered variant prescribed by the claim (alignment from the
previous tick's velocities) gives it `vy = 1/10`.  The two disagree, so
alignment does not read previous-tick velocities and the computed
velocity depends on the iteration order. -/
theorem c6_counterexample :
    ((moveAll ⟨[(480, 450), (480, 480)]⟩
        [⟨0, 0, 480, 450, 0, 1, none⟩, ⟨1, 0, 480, 480, 0, 0, none⟩]
        (fun _ => 1/2) 0).1.getD 1 default).vy = 0 ∧
    ((moveAllSnapshot ⟨[(480, 450), (480, 480)]⟩
        [⟨0, 0, 480, 450, 0, 1, none⟩, ⟨1, 0, 480, 480, 0, 0, none⟩]
        (fun _ => 1/2) 0).getD 1 default).vy = 1/10 ∧
    (0 : ℚ) ≠ 1/10 := by
  refine ⟨?_, ?_, by norm_num⟩
  · set_option maxRecDepth 8000 in with_unfolding_all decide
  · set_option maxRecDepth 8000 in with_unfolding_all decide

/-- C6 amended: the movement loop mutates units in place in list order:
the velocity (and position) of the `i`-th unit is computed by
`move_towards_target` reading the state in which exactly the units before
`i` have already been updated this tick — so the alignment sub-force sees
current-tick velocities for earlier-iterated neighbors and previous-tick
velocities for later ones, and the result depends on the iteration
order.  The unit's own record is still its previous-tick value when it is
processed. -/
theorem c6_amended :
    ∀ (t : SpatialTree) (rnd : ℕ → ℚ) (s : List Unit) (k i : ℕ),
      i < s.length →
      (moveUpTo t s rnd k i).1.getD i default = s.getD i default ∧
      (moveAll t s rnd k).1.getD i default
        = (move_towards_target t (moveUpTo t s rnd k i).1
            ((moveUpTo t s rnd k i).1.getD i default) rnd
            (moveUpTo t s rnd k i).2).1 :=
  fun t rnd s k i hi =>
    ⟨moveUpTo_getD_self t s rnd k i,
      (moveUpTo_getD_self t s rnd k i).symm ▸ moveAll_getD_eq t s rnd k hi⟩

/-- C6 amended witness: the characterization at the second unit of the
counterexample configuration. -/
theorem c6_amended_witness :
    (moveUpTo ⟨[(480, 450), (480, 480)]⟩
        [⟨0, 0, 480, 450, 0, 1, none⟩, ⟨1, 0, 480, 480, 0, 0, none⟩]
        (fun _ => 1/2) 0 1).1.getD 1 default
      = [⟨0, 0, 480, 450, 0, 1, none⟩, ⟨1, 0, 480, 480, 0, 0, none⟩].getD 1 default ∧
    (moveAll ⟨[(480, 450), (480, 480)]⟩
        [⟨0, 0, 480, 450, 0, 1, none⟩, ⟨1, 0, 480, 480, 0, 0, none⟩]
        (fun _ => 1/2) 0).1.getD 1 default
      = (move_towards_target ⟨[(480, 450), (480, 480)]⟩
          (moveUpTo ⟨[(480, 450), (480, 480)]⟩
            [⟨0, 0, 480, 450, 0, 1, none⟩, ⟨1, 0, 480, 480, 0, 0, none⟩]
            (fun _ => 1/2) 0 1).1
          ((moveUpTo ⟨[(480, 450), (480, 480)]⟩
            [⟨0, 0, 480, 450, 0, 1, none⟩, ⟨1, 0, 480, 480, 0, 0, none⟩]
            (fun _ => 1/2) 0 1).1.getD 1 default)
          (fun _ => 1/2)
          (moveUpTo ⟨[(480, 450), (480, 480)]⟩
            [⟨0, 0, 480, 450, 0, 1, none⟩, ⟨1, 0, 480, 480, 0, 0, none⟩]
            (fun _ => 1/2) 0 1).2).1 :=
  c6_amended ⟨[(480, 450), (480, 480)]⟩ (fun _ => 1/2)
    [⟨0, 0, 480, 450, 0, 1, none⟩, ⟨1, 0, 480, 480, 0, 0, none⟩] 0 1 (by decide)

/-- C7: target acquisition each tick.  With no prey candidate the agent
gets no target; with candidates, the coin `c < 0.95` picks the nearest
(which is at minimal distance among all candidates of the prey type);
with a single candidate the nearest is picked regardless of the coin;
otherwise the `randint(1, k-1)` draw `j` picks rank `j + 1` — each
remaining rank corresponds to exactly one draw value, so a uniform
`randint` picks uniformly among ranks 2..k.  The choice ignores the
previously stored target, so it is made anew every tick. -/
theorem c7_target_selection :
    ∀ (state : List Unit) (u : Unit) (c : ℚ) (j : ℕ),
      (find_nearest_of_type state u (prey_type u.unit_type) 3 = [] →
        find_target state u c j = none) ∧
      (find_nearest_of_type state u (prey_type u.unit_type) 3 ≠ [] → c < 95/100 →
        find_target state u c j
          = some ((find_nearest_of_type state u (prey_type u.unit_type) 3).getD
              0 default).1) ∧
      ((find_nearest_of_type state u (prey_type u.unit_type) 3).length = 1 →
        find_target state u c j
          = some ((find_nearest_of_type state u (prey_type u.unit_type) 3).getD
              0 default).1) ∧
      (¬ c < 95/100 → 1 ≤ j →
        j < (find_nearest_of_type state u (prey_type u.unit_type) 3).length →
        find_target state u c j
          = some ((find_nearest_of_type state u (prey_type u.unit_type) 3).getD
              j default).1) ∧
      (∀ x, find_target state { u with target := x } c j = find_target state u c j) ∧
      (find_nearest_of_type state u (prey_type u.unit_type) 3 ≠ [] →
        ∀ v ∈ state, v.unit_type = prey_type u.unit_type → v.id ≠ u.id →
          distSq
              (((find_nearest_of_type state u (prey_type u.unit_type) 3).getD
                  0 default).1.x,
               ((find_nearest_of_type state u (prey_type u.unit_type) 3).getD
                  0 default).1.y) (u.x, u.y)
            ≤ distSq (v.x, v.y) (u.x, u.y)) := by
  intro state u c j
  refine ⟨?_, ?_, ?_, ?_, ?_, ?_⟩
  · intro h
    simp [find_target, h]
  · intro hne hc
    have he : (find_nearest_of_type state u (prey_type u.unit_type) 3).isEmpty
        = false := List.isEmpty_eq_false.mpr hne
    simp [find_target, he, hc]
  · intro h1
    have hne : find_nearest_of_type state u (prey_type u.unit_type) 3 ≠ [] := by
      intro h
      rw [h] at h1
      simp at h1
    have he : (find_nearest_of_type state u (prey_type u.unit_type) 3).isEmpty
        = false := List.isEmpty_eq_false.mpr hne
    simp [find_target, he, h1]
  · intro hc hj1 hjlen
    have hne : find_nearest_of_type state u (prey_type u.unit_type) 3 ≠ [] := by
      intro h
      rw [h] at hjlen
      simp at hjlen
    have he : (find_nearest_of_type state u (prey_type u.unit_type) 3).isEmpty
        = false := List.isEmpty_eq_false.mpr hne
    have hlen1 : (find_nearest_of_type state u (prey_type u.unit_type) 3).length
        ≠ 1 := by omega
    simp [find_target, he, hc, hlen1]
  · intro x
    obtain ⟨uid, uty, ux, uy, uvx, uvy, ut⟩ := u
    rfl
  · intro hne
    exact find_nearest_head_min (by decide) hne

/-- C7 witness: a Scissors unit with three Paper candidates at squared
distances 25, 100, 400: the coin branch returns the nearest, and the
`randint` draw 2 returns the third-nearest. -/
theorem c7_target_selection_witness :
    find_target
        [⟨0, 0, 0, 0, 0, 0, none⟩, ⟨1, 2, 3, 4, 0, 0, none⟩,
         ⟨2, 2, 0, 10, 0, 0, none⟩, ⟨3, 2, 0, 20, 0, 0, none⟩]
        ⟨0, 0, 0, 0, 0, 0, none⟩ (1/2) 1
      = some ⟨1, 2, 3, 4, 0, 0, none⟩ ∧
    find_target
        [⟨0, 0, 0, 0, 0, 0, none⟩, ⟨1, 2, 3, 4, 0, 0, none⟩,
         ⟨2, 2, 0, 10, 0, 0, none⟩, ⟨3, 2, 0, 20, 0, 0, none⟩]
        ⟨0, 0, 0, 0, 0, 0, none⟩ (99/100) 2
      = some ⟨3, 2, 0, 20, 0, 0, none⟩ := by
  constructor
  · have h := (c7_target_selection
        [⟨0, 0, 0, 0, 0, 0, none⟩, ⟨1, 2, 3, 4, 0, 0, none⟩,
         ⟨2, 2, 0, 10, 0, 0, none⟩, ⟨3, 2, 0, 20, 0, 0, none⟩]
        ⟨0, 0, 0, 0, 0, 0, none⟩ (1/2) 1).2.1
        (by with_unfolding_all decide) (by with_unfolding_all decide)
    exact h.trans (by with_unfolding_all decide)
  · have h := (c7_target_selection
        [⟨0, 0, 0, 0, 0, 0, none⟩, ⟨1, 2, 3, 4, 0, 0, none⟩,
         ⟨2, 2, 0, 10, 0, 0, none⟩, ⟨3, 2, 0, 20, 0, 0, none⟩]
        ⟨0, 0, 0, 0, 0, 0, none⟩ (99/100) 2).2.2.2.1
        (by with_unfolding_all decide) (by decide) (by with_unfolding_all decide)
    exact h.trans (by with_unfolding_all decide)

/-- C8: a nonempty single-type population ends its first tick (indeed any
tick) in DOMINANCE_WIN with that type and the full agent count, for every
draw sequence.  A zero-agent population, however, does not reach the
termination check: the tick crashes while building the spatial index
(`cKDTree` rejects the empty, 1-dimensional position array), even though
`check_end_condition` itself treats an empty population as ended and the
loop's own empty-case branch would report a win with no winner — that
branch is unreachable. -/
theorem c8_termination :
    (∀ (units : List Unit) (tt : ℕ) (rnd : ℕ → ℚ) (rij : ℕ → ℕ) (steps : ℕ),
      units ≠ [] → (∀ u ∈ units, u.unit_type = tt) →
      ∃ l, runTick units rnd rij steps
        = .ok (l, .dominanceWin (some tt) units.length)) ∧
    (∀ (rnd : ℕ → ℚ) (rij : ℕ → ℕ) (steps : ℕ),
      runTick [] rnd rij steps = .error "ValueError: data must be 2 dimensions") ∧
    check_end_condition [] = true ∧
    tickOutcome [] 1 = .dominanceWin none 0 := by
  refine ⟨?_, fun rnd rij steps => rfl, rfl, rfl⟩
  intro units tt rnd rij steps hne hall
  have hemp : units.isEmpty = false := List.isEmpty_eq_false.mpr hne
  simp only [runTick, SpatialTree.build, hemp, Bool.false_eq_true, if_false]
  have h1type : ∀ u ∈ (targetLoop units rnd rij units 0 0).1, u.unit_type = tt :=
    targetLoop_forall_type units rnd rij units 0 0 hall
  have h1len : (targetLoop units rnd rij units 0 0).1.length = units.length :=
    targetLoop_length units rnd rij units 0 0
  have h2type : ∀ u ∈ (moveAll ⟨units.map (fun u => (u.x, u.y))⟩
      (targetLoop units rnd rij units 0 0).1 rnd
      (targetLoop units rnd rij units 0 0).2.1).1, u.unit_type = tt := by
    rw [moveAll]
    exact moveLoop_forall_type _ _ _ _ _ h1type
  have h2len : (moveAll ⟨units.map (fun u => (u.x, u.y))⟩
      (targetLoop units rnd rij units 0 0).1 rnd
      (targetLoop units rnd rij units 0 0).2.1).1.length = units.length := by
    rw [moveAll, moveLoop_length, h1len]
  have hq : ∀ i ∈ List.range (moveAll ⟨units.map (fun u => (u.x, u.y))⟩
      (targetLoop units rnd rij units 0 0).1 rnd
      (targetLoop units rnd rij units 0 0).2.1).1.length,
      query_by_type ⟨units.map (fun u => (u.x, u.y))⟩
        (moveAll ⟨units.map (fun u => (u.x, u.y))⟩
          (targetLoop units rnd rij units 0 0).1 rnd
          (targetLoop units rnd rij units 0 0).2.1).1
        ((moveAll ⟨units.map (fun u => (u.x, u.y))⟩
          (targetLoop units rnd rij units 0 0).1 rnd
          (targetLoop units rnd rij units 0 0).2.1).1.getD i default)
        (MIN_DISTANCE * 2)
        (predator_type ((moveAll ⟨units.map (fun u => (u.x, u.y))⟩
          (targetLoop units rnd rij units 0 0).1 rnd
          (targetLoop units rnd rij units 0 0).2.1).1.getD i
            default).unit_type) = [] := by
    intro i hi
    have hmem := getD_mem _ (List.mem_range.mp hi)
    have htt := h2type _ hmem
    rw [htt]
    exact query_by_type_eq_nil (by simpa using h2len.symm) h2type (predator_type_ne tt)
  have hcoll : collisionPhase ⟨units.map (fun u => (u.x, u.y))⟩
      (moveAll ⟨units.map (fun u => (u.x, u.y))⟩
        (targetLoop units rnd rij units 0 0).1 rnd
        (targetLoop units rnd rij units 0 0).2.1).1 rnd
      (moveAll ⟨units.map (fun u => (u.x, u.y))⟩
        (targetLoop units rnd rij units 0 0).1 rnd
        (targetLoop units rnd rij units 0 0).2.1).2
      = (moveAll ⟨units.map (fun u => (u.x, u.y))⟩
        (targetLoop units rnd rij units 0 0).1 rnd
        (targetLoop units rnd rij units 0 0).2.1).1 := by
    rw [collisionPhase, collisionNewTypes_eq_nil hq, applyNewTypes_nil]
  have hout : tickOutcome (moveAll ⟨units.map (fun u => (u.x, u.y))⟩
      (targetLoop units rnd rij units 0 0).1 rnd
      (targetLoop units rnd rij units 0 0).2.1).1 (steps + 1)
      = .dominanceWin (some tt) units.length := by
    rcases hS2 : (moveAll ⟨units.map (fun u => (u.x, u.y))⟩
        (targetLoop units rnd rij units 0 0).1 rnd
        (targetLoop units rnd rij units 0 0).2.1).1 with _ | ⟨w, ws⟩
    · rw [hS2] at h2len
      simp at h2len
      exact absurd (List.eq_nil_of_length_eq_zero (by omega)) hne
    · rw [hS2] at h2type h2len
      rw [hS2]
      have hwt : w.unit_type = tt := h2type w (List.mem_cons_self w ws)
      have hend : check_end_condition (w :: ws) = true := by
        simp only [check_end_condition, List.all_eq_true, decide_eq_true_eq]
        intro v hv
        rw [h2type v (List.mem_cons_of_mem w hv), hwt]
      have hcount : (w :: ws).countP (fun v => v.unit_type = w.unit_type)
          = (w :: ws).length :=
        List.countP_eq_length.mpr (fun a ha => by
          simp [h2type a ha, hwt])
      simp only [tickOutcome, hend, if_true]
      rw [hcount, h2len, hwt]
  refine ⟨(moveAll ⟨units.map (fun u => (u.x, u.y))⟩
      (targetLoop units rnd rij units 0 0).1 rnd
      (targetLoop units rnd rij units 0 0).2.1).1, ?_⟩
  rw [hcoll, hout]

/-- C8 witness: a one-Scissors population wins by dominance on the first
tick, and the empty population crashes in the index build. -/
theorem c8_termination_witness :
    (∃ l, runTick [⟨0, 0, 100, 100, 0, 0, none⟩] (fun _ => (1 : ℚ)/2)
        (fun _ => 1) 0 = .ok (l, .dominanceWin (some 0) 1)) ∧
    runTick [] (fun _ => (1 : ℚ)/2) (fun _ => 1) 0
      = .error "ValueError: data must be 2 dimensions" := by
  constructor
  · have h := c8_termination.1 [⟨0, 0, 100, 100, 0, 0, none⟩] 0
      (fun _ => (1 : ℚ)/2) (fun _ => 1) 0 (by decide) (by decide)
    simpa using h
  · exact c8_termination.2.1 (fun _ => (1 : ℚ)/2) (fun _ => 1) 0

end RPS
